import Mathlib

/-!
# libselftest: a shallow embedding of `libselftest/libselftest.c`

The harness is a C struct `LibSelfTest` that every function receives by
pointer.  Here each C function becomes a Lean function over an explicit
`State`: the struct together with the part of the process the functions act
on (text sent to `g_print`, the GLib timeout sources, the running flag of the
main loop, the calls to `g_source_remove` and `g_free`).

* `guint` fields are natural numbers; `++` wraps at `2^32` (`GUINT_MOD`).
* `exit (1)` is the `Outcome.exit` constructor: it carries the state reached at
  the moment the process terminates.
* A `printf` format and its variadic arguments are passed as the already
  formatted text (`none` stands for a `NULL` format).  That text is also what
  `va_args_buffer` points to after `g_vasprintf`, so `g_free (va_args_buffer)`
  is recorded as the release of `some` of that text.
* The stopwatch (`GTimer`) is read through floating point; its reading is an
  argument of the one function that uses it (`libst_loopcheck`), and
  `g_timer_new`, `g_timer_reset`, `g_timer_destroy` and `g_main_loop_unref`,
  which touch nothing else, are left out.  Of `g_main_loop_new (NULL, FALSE)`
  the running flag of the new loop is kept.
-/

namespace Libselftest

/-! ## Data model -/

/-- One more than `G_MAXUINT`: a `guint` is a 32-bit unsigned integer. -/
def GUINT_MOD : Nat := 4294967296

/-- Modelled from the spec: the enumeration `LibSelfTestClass` of the header
`libselftest.h`, which is not among the sources ("one of AUTO, MANUAL, ALL"). -/
inductive LibSelfTestClass where
  | CLASS_ALL
  | CLASS_AUTO
  | CLASS_MANUAL
  deriving DecidableEq, Repr

/-- Modelled from the spec: the enumeration `LibSelfTestLevel` of the header
`libselftest.h`, which is not among the sources ("one of SILENT, NORMAL,
VERBOSE(ALL)"). -/
inductive LibSelfTestLevel where
  | LEVEL_SILENT
  | LEVEL_NORMAL
  | LEVEL_ALL
  deriving DecidableEq, Repr

/-- Modelled from the spec: the struct `LibSelfTest` of the header
`libselftest.h`, which is not among the sources; the fields are the ones
`libselftest.c` reads and writes.  `type` is the `gchar *` holding the group
name (`none` is `NULL`); `class_` is the C field `class`.  The `timer` and
`loop` handles are not represented (see the header of this file). -/
structure LibSelfTest where
  total : Nat
  succeeded : Nat
  started : Bool
  class_ : LibSelfTestClass
  level : LibSelfTestLevel
  type : Option String
  hang_loop_id : Nat
  user_data : Nat
  deriving DecidableEq, Repr

/-- The harness and the part of the process its functions act on.
* `out`: the text of every `g_print` call, oldest first;
* `sources`: the ids of the timeout sources attached to the main context;
* `loop_running`: the running flag of `test->loop`;
* `removed`: every `g_source_remove` call, with the `gboolean` it returned
  (`true` when the id named an attached source);
* `freed`: every pointer handed to `g_free`. -/
structure State where
  test : LibSelfTest
  out : List String
  sources : List Nat
  loop_running : Bool
  removed : List (Nat × Bool)
  freed : List (Option String)
  deriving DecidableEq, Repr

/-- How a call ends: it returns a value, or the process terminates through
`exit (status)`. -/
inductive Outcome (α : Type) where
  | ret (val : α) (s : State)
  | exit (status : Nat) (s : State)
  deriving DecidableEq, Repr

/-- The state a call ends in, whether it returned or terminated the process. -/
def Outcome.state {α : Type} : Outcome α → State
  | .ret _ s => s
  | .exit _ s => s

/-- What happens while `g_main_loop_run` blocks: the timeout source fires, or
a callback of the application calls `libst_loopquit` before it does. -/
inductive LoopEvent where
  | timer_fired
  | callback_quit
  deriving DecidableEq, Repr

/-! ## GLib primitives -/

/-- `g_print`: append the formatted text to standard output. -/
def g_print (s : State) (text : String) : State :=
  { s with out := s.out ++ [text] }

/-- `g_source_remove (tag)`: detach the source when it is attached; the call
and its result are recorded. -/
def g_source_remove (s : State) (tag : Nat) : State :=
  { s with sources := s.sources.erase tag,
           removed := s.removed ++ [(tag, decide (tag ∈ s.sources))] }

/-- `g_timeout_add`: attach a timeout source; `id` is the identifier GLib
hands back (GLib documents it as greater than 0). -/
def g_timeout_add (s : State) (id : Nat) : State :=
  { s with sources := id :: s.sources }

/-- `g_main_loop_quit`: clear the running flag of the loop. -/
def g_main_loop_quit (s : State) : State :=
  { s with loop_running := false }

/-- `g_free`: the pointer is released (and recorded); no field changes. -/
def g_free (s : State) (p : Option String) : State :=
  { s with freed := s.freed ++ [p] }

/-- The text `%u` produces. -/
def fmt_u (n : Nat) : String := toString n

/-- The text `%i` produces for a `guint` argument: the 32 bits read as a
signed integer. -/
def fmt_i (n : Nat) : String :=
  if n < 2147483648 then toString n else "-" ++ toString (GUINT_MOD - n)

/-- The text `%s` produces: glibc prints `(null)` for a `NULL` pointer. -/
def fmt_s (p : Option String) : String :=
  match p with
  | some str => str
  | none => "(null)"

/-! ## The functions of `libselftest.c` -/

/-- `libst_init`: every field but `user_data` is assigned; the new loop is
not running. -/
def libst_init (s : State) : State :=
  { s with
    test :=
      { s.test with
        total := 0
        succeeded := 0
        type := none
        started := false
        class_ := .CLASS_AUTO
        level := .LEVEL_ALL
        hang_loop_id := 0 }
    loop_running := false }

/-- `libst_loopquit`. -/
def libst_loopquit (s : State) : State :=
  let s1 :=
    if s.test.hang_loop_id ≠ 0 then
      let r := g_source_remove s s.test.hang_loop_id
      { r with test := { r.test with hang_loop_id := 0 } }
    else s
  g_main_loop_quit s1

/-- `libst_hang_check`: the callback of the timeout source; the `FALSE` it
returns tells GLib to destroy the source. -/
def libst_hang_check (s : State) : Bool × State :=
  (false, g_main_loop_quit s)

/-- `g_main_loop_run`: set the running flag and dispatch until a callback
clears it.  On `timer_fired` GLib calls `libst_hang_check` for the source
`id` and destroys the source when the callback returns `FALSE`; on
`callback_quit` an application callback calls `libst_loopquit`. -/
def g_main_loop_run (s : State) (id : Nat) (ev : LoopEvent) : State :=
  let s1 := { s with loop_running := true }
  match ev with
  | .timer_fired =>
    let r := libst_hang_check s1
    if r.1 then r.2 else { r.2 with sources := r.2.sources.erase id }
  | .callback_quit => libst_loopquit s1

/-- `libst_loopwait`: `id` is what `g_timeout_add` returns, `ev` what happens
while the loop runs. -/
def libst_loopwait (s : State) (timeout : Nat) (id : Nat) (ev : LoopEvent) : State :=
  let _ := timeout
  let s1 := g_timeout_add s id
  let s2 := { s1 with test := { s1.test with hang_loop_id := id } }
  g_main_loop_run s2 id ev

/-- `libst_set_user_data`. -/
def libst_set_user_data (s : State) (user_data : Nat) : State :=
  { s with test := { s.test with user_data := user_data } }

/-- `libst_get_user_data`. -/
def libst_get_user_data (s : State) : Nat :=
  s.test.user_data

/-- `libst_finish`: the summary line and the exit code. -/
def libst_finish (s : State) : Int × State :=
  let s1 := g_print s
    ("test passes (" ++ fmt_u s.test.succeeded ++ "/" ++ fmt_u s.test.total ++ ") : ")
  if s.test.succeeded = s.test.total then
    (0, g_print s1 "ALL OKAY\n")
  else
    (1, g_print s1
      (fmt_u ((s.test.total + GUINT_MOD - s.test.succeeded) % GUINT_MOD) ++ " FAILURE(S)\n"))

/-- `libst_start`. -/
def libst_start (s : State) (name : String) (cls : LibSelfTestClass) : Outcome Bool :=
  if cls = .CLASS_AUTO ∧ s.test.class_ = .CLASS_MANUAL then
    .ret false s
  else if cls = .CLASS_MANUAL ∧ s.test.class_ = .CLASS_AUTO then
    .ret false s
  else if s.test.started = true then
    .exit 1 (g_print s "Not ended test! Cannot start!\n")
  else
    let s1 := { s with test := { s.test with type := some name, started := true } }
    let s2 :=
      if s1.test.level = .LEVEL_NORMAL then g_print s1 (fmt_s s1.test.type ++ "...") else s1
    .ret true s2

/-- `libst_end`: `g_free` releases the name but `test->type` is not
assigned. -/
def libst_end (s : State) : Outcome Unit :=
  if s.test.started = false then
    .exit 1 (g_print s "Not started test! Cannot finish!\n")
  else
    let s1 := if s.test.level = .LEVEL_NORMAL then g_print s "OK\n" else s
    let s2 :=
      if s1.test.hang_loop_id ≠ 0 then
        let r := g_source_remove s1 s1.test.hang_loop_id
        { r with test := { r.test with hang_loop_id := 0 } }
      else s1
    let s3 := { s2 with test := { s2.test with started := false } }
    .ret () (g_free s3 s3.test.type)

/-- `libst_title`: `msg` is the formatted title, which `va_args_buffer` holds
at level ALL and which is freed after the print. -/
def libst_title (s : State) (msg : String) : State :=
  let s1 :=
    if s.test.level = .LEVEL_ALL then
      let p := g_print s ("> check #" ++ fmt_u ((s.test.total + 1) % GUINT_MOD) ++ "\t"
        ++ fmt_s s.test.type ++ ": \t" ++ msg ++ "...")
      g_free p (some msg)
    else s
  { s1 with test := { s1.test with total := (s1.test.total + 1) % GUINT_MOD } }

/-- `libst_success`: `msg` is the formatted message, `none` for a `NULL`
format; with a format, `va_args_buffer` holds the message at level ALL and is
freed after the print. -/
def libst_success (s : State) (msg : Option String) : State :=
  let s1 :=
    if s.test.level = .LEVEL_ALL then
      match msg with
      | none => g_print s "...OK\n"
      | some m => g_free (g_print s ("...OK [" ++ m ++ "]\n")) (some m)
    else s
  { s1 with test := { s1.test with succeeded := (s1.test.succeeded + 1) % GUINT_MOD } }

/-- `libst_failed`: `msg` is the formatted message, `none` for a `NULL`
format; with a format, `va_args_buffer` holds the message at the levels ALL
and NORMAL and is freed after the print. -/
def libst_failed (s : State) (msg : Option String) : Outcome Unit :=
  let s1 :=
    if s.test.level = .LEVEL_ALL ∨ s.test.level = .LEVEL_NORMAL then
      match msg with
      | none => g_print s "FAILED\n"
      | some m => g_free (g_print s ("FAILED [" ++ m ++ "]\n")) (some m)
    else s
  .exit 1 s1

/-- `libst_loopcheck`: `elapsed` is what `libst_elapsed` returned. -/
def libst_loopcheck (s : State) (elapsed : Nat) : Outcome Unit :=
  let s1 := libst_title s "did we timeout out of the loop"
  if s1.test.hang_loop_id = 0 then
    .ret () (libst_success s1 (some ("loop blocked for " ++ fmt_i elapsed ++ "ms")))
  else
    libst_failed s1 (some ("hangcheck saved us after " ++ fmt_i elapsed ++ "ms"))

/-! ## Sequences of calls -/

/-- A value a public function returns. -/
inductive Value where
  | void
  | bool (b : Bool)
  | int (i : Int)
  | ptr (p : Nat)
  deriving DecidableEq, Repr

/-- A call of a public function on the harness, with its arguments and, for
`libst_loopwait` and `libst_loopcheck`, what the environment supplies. -/
inductive Call where
  | start (name : String) (cls : LibSelfTestClass)
  | end_
  | title (msg : String)
  | success (msg : Option String)
  | failed (msg : Option String)
  | loopwait (timeout : Nat) (id : Nat) (ev : LoopEvent)
  | loopquit
  | loopcheck (elapsed : Nat)
  | set_user_data (p : Nat)
  | get_user_data
  | finish
  deriving DecidableEq, Repr

/-- Forget the type of the returned value. -/
def Outcome.toValue {α : Type} (f : α → Value) : Outcome α → Outcome Value
  | .ret v s => .ret (f v) s
  | .exit n s => .exit n s

/-- Execute one call. -/
def step (c : Call) (s : State) : Outcome Value :=
  match c with
  | .start name cls => (libst_start s name cls).toValue Value.bool
  | .end_ => (libst_end s).toValue (fun _ => Value.void)
  | .title msg => .ret .void (libst_title s msg)
  | .success msg => .ret .void (libst_success s msg)
  | .failed msg => (libst_failed s msg).toValue (fun _ => Value.void)
  | .loopwait timeout id ev => .ret .void (libst_loopwait s timeout id ev)
  | .loopquit => .ret .void (libst_loopquit s)
  | .loopcheck elapsed => (libst_loopcheck s elapsed).toValue (fun _ => Value.void)
  | .set_user_data p => .ret .void (libst_set_user_data s p)
  | .get_user_data => .ret (.ptr (libst_get_user_data s)) s
  | .finish => .ret (.int (libst_finish s).1) (libst_finish s).2

/-- Execute the calls in order; nothing runs after the process has
terminated.  The returned values are dropped (`trace` keeps them). -/
def run : List Call → State → Outcome Unit
  | [], s => .ret () s
  | c :: cs, s =>
    match step c s with
    | .ret _ s1 => run cs s1
    | .exit n s1 => .exit n s1

/-- The outcome of every call that is executed, in order. -/
def trace : List Call → State → List (Outcome Value)
  | [], _ => []
  | c :: cs, s =>
    match step c s with
    | .ret v s1 => .ret v s1 :: trace cs s1
    | .exit n s1 => [.exit n s1]

/-- The memory of a process before `libst_init`: a zeroed struct, nothing
printed, no timeout source. -/
def blank : State :=
  { test :=
      { total := 0, succeeded := 0, started := false, class_ := .CLASS_ALL,
        level := .LEVEL_SILENT, type := none, hang_loop_id := 0, user_data := 0 }
    out := []
    sources := []
    loop_running := false
    removed := []
    freed := [] }

/-- The caller's assignments `test->class = cls; test->level = lvl` (the struct
is public and has no setter for them). -/
def configure (s : State) (cls : LibSelfTestClass) (lvl : LibSelfTestLevel) : State :=
  { s with test := { s.test with class_ := cls, level := lvl } }

/-- Everything printed so far, as one text. -/
def State.printed (s : State) : String :=
  String.join s.out

/-- A resolved check: `libst_title (title)` immediately followed by
`libst_success (msg)`. -/
structure Check where
  title : String
  msg : Option String
  deriving DecidableEq, Repr

/-- The calls of a list of resolved checks. -/
def checkCalls : List Check → List Call
  | [] => []
  | c :: cs => Call.title c.title :: Call.success c.msg :: checkCalls cs

/-- A group: `libst_start (name, cls)`, its resolved checks, `libst_end`. -/
structure Group where
  name : String
  cls : LibSelfTestClass
  checks : List Check
  deriving DecidableEq, Repr

/-- The calls of a group. -/
def Group.calls (g : Group) : List Call :=
  Call.start g.name g.cls :: (checkCalls g.checks ++ [Call.end_])

/-- The calls of a sequence of groups. -/
def suite : List Group → List Call
  | [] => []
  | g :: gs => g.calls ++ suite gs

/-- The number of checks in a sequence of groups. -/
def checkCount : List Group → Nat
  | [] => 0
  | g :: gs => g.checks.length + checkCount gs

/-- How many checks a sequence of calls announces: `libst_title` calls and
`libst_loopcheck` calls (which call `libst_title`). -/
def announcedCount : List Call → Nat
  | [] => 0
  | .title _ :: cs => announcedCount cs + 1
  | .loopcheck _ :: cs => announcedCount cs + 1
  | _ :: cs => announcedCount cs

/-- How many successes a sequence of calls that returns normally records:
`libst_success` calls and `libst_loopcheck` calls (which return only through
`libst_success`). -/
def resolvedCount : List Call → Nat
  | [] => 0
  | .success _ :: cs => resolvedCount cs + 1
  | .loopcheck _ :: cs => resolvedCount cs + 1
  | _ :: cs => resolvedCount cs

/-- `G_MAXUINT` calls of `libst_title`: 4294967295 checks announced. -/
def maxTitles : List Call :=
  List.replicate 4294967295 (Call.title "t")

/-- One group of 4294967296 resolved checks. -/
def wrapGroup : Group :=
  { name := "g", cls := .CLASS_AUTO,
    checks := List.replicate 4294967295 { title := "t", msg := none }
      ++ [{ title := "t", msg := none }] }

/-- One group with one resolved check. -/
def mathGroup : Group :=
  { name := "math", cls := .CLASS_AUTO, checks := [{ title := "add", msg := none }] }

/-- A sequence of public calls in which a wait is ended by a callback and
every success answers an announced check. -/
def balancedCalls : List Call :=
  [.start "math" .CLASS_AUTO, .title "add", .success none, .set_user_data 5,
   .loopwait 100 7 .callback_quit, .loopcheck 42, .loopquit, .end_]

/-- A harness with an open group, as `libst_start ("a", CLASS_AUTO)` leaves it
right after `libst_init`. -/
def openGroup : State :=
  { blank with test := { (libst_init blank).test with type := some "a", started := true } }

/-- The calls of the run `libst_start ("math", CLASS_AUTO); libst_title ("add");
libst_success (NULL); libst_end; libst_finish`. -/
def mathCalls : List Call :=
  [.start "math" .CLASS_AUTO, .title "add", .success none, .end_, .finish]

/-- The timeout handle a sequence of calls that returns normally leaves,
given the handle `h` it started with: a `libst_loopwait` ended by the timer
leaves the id of its source, a `libst_loopwait` ended by a callback's
`libst_loopquit`, a `libst_loopquit` and a `libst_end` leave 0, and no other
call assigns the handle. -/
def handleAfter : List Call → Nat → Nat
  | [], h => h
  | .loopwait _ id .timer_fired :: cs, _ => handleAfter cs id
  | .loopwait _ _ .callback_quit :: cs, _ => handleAfter cs 0
  | .loopquit :: cs, _ => handleAfter cs 0
  | .end_ :: cs, _ => handleAfter cs 0
  | _ :: cs, h => handleAfter cs h

/-- A group in which a wait of 100 ms on source 7 times out, closed by
`libst_end`. -/
def timedOutGroup : List Call :=
  [.start "a" .CLASS_AUTO, .loopwait 100 7 .timer_fired, .end_]

/-- `G_MAXUINT` calls of `libst_success (NULL)`. -/
def maxSuccesses : List Call :=
  List.replicate 4294967295 (Call.success none)

/-- A wait of 100 ms on source 7 that times out, followed by
`libst_loopquit`. -/
def timedOutQuit : List Call :=
  [.loopwait 100 7 .timer_fired, .loopquit]

/-- The caller's assignment `test->level = lvl`. -/
def setLevel (s : State) (lvl : LibSelfTestLevel) : State :=
  { s with test := { s.test with level := lvl } }

/-- A state without what the verbosity may change: the level itself, the
text printed, and the record of the buffers freed (the formatted text is
allocated and freed only at the levels that print it).  Every other field is
kept. -/
def State.hide (s : State) : State :=
  { s with test := { s.test with level := .LEVEL_SILENT }, out := [], freed := [] }

/-- The outcome of a call without what the verbosity may change: the kind of
outcome, the returned value and the exit status are kept. -/
def Outcome.hide : Outcome Value → Outcome Value
  | .ret v s => .ret v s.hide
  | .exit n s => .exit n s.hide

/-- The discipline of announcing and resolving checks, `pending` telling
whether an announced check is unresolved: `libst_title` only with no check
pending; `libst_success` only with one pending; `libst_loopcheck` (which
announces and resolves a check of its own) and `libst_finish` only with none
pending.  Nothing runs after `libst_failed`, which terminates the process. -/
def disciplined : Bool → List Call → Bool
  | _, [] => true
  | pending, .title _ :: cs => !pending && disciplined true cs
  | pending, .success _ :: cs => pending && disciplined false cs
  | _, .failed _ :: _ => true
  | pending, .loopcheck _ :: cs => !pending && disciplined false cs
  | pending, .finish :: cs => !pending && disciplined false cs
  | pending, _ :: cs => disciplined pending cs

/-! ## Counters along a sequence of calls -/

theorem title_counters (s : State) (msg : String) :
    (libst_title s msg).test.total = (s.test.total + 1) % GUINT_MOD ∧
    (libst_title s msg).test.succeeded = s.test.succeeded := by
  unfold libst_title
  split <;> simp [g_print, g_free]

theorem success_counters (s : State) (msg : Option String) :
    (libst_success s msg).test.total = s.test.total ∧
    (libst_success s msg).test.succeeded = (s.test.succeeded + 1) % GUINT_MOD := by
  unfold libst_success
  split
  · cases msg <;> simp [g_print, g_free]
  · simp

theorem start_counters (s : State) (name : String) (cls : LibSelfTestClass) :
    (libst_start s name cls).state.test.total = s.test.total ∧
    (libst_start s name cls).state.test.succeeded = s.test.succeeded := by
  unfold libst_start
  dsimp only
  split_ifs <;> simp [Outcome.state, g_print]

theorem end_counters (s : State) :
    (libst_end s).state.test.total = s.test.total ∧
    (libst_end s).state.test.succeeded = s.test.succeeded := by
  unfold libst_end
  dsimp only
  split_ifs <;> simp [Outcome.state, g_print, g_free, g_source_remove]

theorem toValue_state {α : Type} (f : α → Value) (o : Outcome α) :
    (o.toValue f).state = o.state := by
  cases o <;> rfl

theorem mem_trace_cons (o : Outcome Value) (c : Call) (cs : List Call) (s : State) :
    o ∈ trace (c :: cs) s ↔
      o = step c s ∨ ∃ v s1, step c s = .ret v s1 ∧ o ∈ trace cs s1 := by
  cases h : step c s with
  | ret v s1 =>
    simp only [trace, h, List.mem_cons]
    constructor
    · rintro (h1 | h1)
      · exact Or.inl h1
      · exact Or.inr ⟨v, s1, rfl, h1⟩
    · rintro (h1 | ⟨v1, s2, h2, h3⟩)
      · exact Or.inl h1
      · cases h2
        exact Or.inr h3
  | exit n s1 => simp [trace, h]

theorem checks_keep_order (cks : List Check) : ∀ (rest : List Call) (s : State),
    s.test.succeeded = s.test.total → s.test.total + cks.length < GUINT_MOD →
    (∀ s1 : State, s1.test.succeeded = s1.test.total →
        s1.test.total = s.test.total + cks.length →
        ∀ o ∈ trace rest s1, o.state.test.succeeded ≤ o.state.test.total) →
    ∀ o ∈ trace (checkCalls cks ++ rest) s, o.state.test.succeeded ≤ o.state.test.total := by
  induction cks with
  | nil =>
    intro rest s hb _ hk o ho
    exact hk s hb (by simp) o (by simpa [checkCalls] using ho)
  | cons c cks ih =>
    intro rest s hb hlt hk o ho
    have hlen : s.test.total + (cks.length + 1) < GUINT_MOD := by simpa using hlt
    obtain ⟨ht1, ht2⟩ := title_counters s c.title
    obtain ⟨hs1, hs2⟩ := success_counters (libst_title s c.title) c.msg
    have hmod : (s.test.total + 1) % GUINT_MOD = s.test.total + 1 :=
      Nat.mod_eq_of_lt (by omega)
    rw [hmod] at ht1
    rw [ht2, hb, hmod] at hs2
    rw [ht1] at hs1
    simp only [checkCalls, List.cons_append] at ho
    rw [mem_trace_cons] at ho
    rcases ho with ho | ⟨v, s1, hstep, ho⟩
    · subst ho
      simp only [step, Outcome.state]
      omega
    · simp only [step, Outcome.ret.injEq] at hstep
      obtain ⟨-, rfl⟩ := hstep
      rw [mem_trace_cons] at ho
      rcases ho with ho | ⟨v2, s2, hstep2, ho⟩
      · subst ho
        simp only [step, Outcome.state]
        omega
      · simp only [step, Outcome.ret.injEq] at hstep2
        obtain ⟨-, rfl⟩ := hstep2
        refine ih rest _ (by omega) (by omega) ?_ o ho
        intro s3 h3 h4
        exact hk s3 h3 (by simp only [List.length_cons]; omega)

theorem suite_keeps_order (gs : List Group) : ∀ s : State,
    s.test.succeeded = s.test.total → s.test.total + checkCount gs < GUINT_MOD →
    ∀ o ∈ trace (suite gs) s, o.state.test.succeeded ≤ o.state.test.total := by
  induction gs with
  | nil =>
    intro s _ _ o ho
    simp [suite, trace] at ho
  | cons g gs ih =>
    intro s hb hlt o ho
    simp only [checkCount] at hlt
    simp only [suite, Group.calls, List.cons_append, List.append_assoc] at ho
    rw [mem_trace_cons] at ho
    obtain ⟨hc1, hc2⟩ := start_counters s g.name g.cls
    rcases ho with ho | ⟨v, s1, hstep, ho⟩
    · subst ho
      simp only [step, toValue_state]
      omega
    · have hst : (step (Call.start g.name g.cls) s).state = s1 := by rw [hstep]; rfl
      simp only [step, toValue_state] at hst
      rw [hst] at hc1 hc2
      refine checks_keep_order g.checks _ s1 (by omega) (by omega) ?_ o ho
      intro s2 h2 h3 o2 ho2
      simp only [List.singleton_append] at ho2
      rw [mem_trace_cons] at ho2
      obtain ⟨he1, he2⟩ := end_counters s2
      rcases ho2 with ho2 | ⟨v3, s3, hstep3, ho2⟩
      · subst ho2
        simp only [step, toValue_state]
        omega
      · have hst3 : (step Call.end_ s2).state = s3 := by rw [hstep3]; rfl
        simp only [step, toValue_state] at hst3
        rw [hst3] at he1 he2
        exact ih s3 (by omega) (by omega) o2 ho2

theorem checkCalls_append (a b : List Check) :
    checkCalls (a ++ b) = checkCalls a ++ checkCalls b := by
  induction a with
  | nil => rfl
  | cons c a ih => simp [checkCalls, ih]

theorem checks_reach (cks : List Check) : ∀ (rest : List Call) (s : State),
    s.test.total < GUINT_MOD → s.test.succeeded < GUINT_MOD →
    ∃ s1 : State,
      s1.test.total = (s.test.total + cks.length) % GUINT_MOD ∧
      s1.test.succeeded = (s.test.succeeded + cks.length) % GUINT_MOD ∧
      ∀ o ∈ trace rest s1, o ∈ trace (checkCalls cks ++ rest) s := by
  induction cks with
  | nil =>
    intro rest s h1 h2
    refine ⟨s, ?_, ?_, ?_⟩
    · simp [Nat.mod_eq_of_lt h1]
    · simp [Nat.mod_eq_of_lt h2]
    · intro o ho
      simpa [checkCalls] using ho
  | cons c cks ih =>
    intro rest s h1 h2
    obtain ⟨ht1, ht2⟩ := title_counters s c.title
    obtain ⟨hs1, hs2⟩ := success_counters (libst_title s c.title) c.msg
    rw [ht1] at hs1
    rw [ht2] at hs2
    have hM : 0 < GUINT_MOD := by decide
    obtain ⟨s1, e1, e2, e3⟩ := ih rest (libst_success (libst_title s c.title) c.msg)
      (by rw [hs1]; exact Nat.mod_lt _ hM) (by rw [hs2]; exact Nat.mod_lt _ hM)
    refine ⟨s1, ?_, ?_, ?_⟩
    · rw [e1, hs1, List.length_cons, Nat.mod_add_mod]
      congr 1
      omega
    · rw [e2, hs2, List.length_cons, Nat.mod_add_mod]
      congr 1
      omega
    · intro o ho
      simp only [checkCalls, List.cons_append]
      rw [mem_trace_cons]
      refine Or.inr ⟨Value.void, libst_title s c.title, rfl, ?_⟩
      rw [mem_trace_cons]
      exact Or.inr ⟨Value.void, _, rfl, e3 o ho⟩

theorem announcedCount_cons (c : Call) (cs : List Call) :
    announcedCount (c :: cs) = announcedCount [c] + announcedCount cs := by
  cases c <;> simp [announcedCount] <;> omega

theorem resolvedCount_cons (c : Call) (cs : List Call) :
    resolvedCount (c :: cs) = resolvedCount [c] + resolvedCount cs := by
  cases c <;> simp [resolvedCount] <;> omega

theorem loopquit_counters (s : State) :
    (libst_loopquit s).test.total = s.test.total ∧
    (libst_loopquit s).test.succeeded = s.test.succeeded := by
  unfold libst_loopquit
  dsimp only
  split_ifs <;> simp [g_main_loop_quit, g_source_remove]

theorem loopwait_counters (s : State) (timeout id : Nat) (ev : LoopEvent) :
    (libst_loopwait s timeout id ev).test.total = s.test.total ∧
    (libst_loopwait s timeout id ev).test.succeeded = s.test.succeeded := by
  cases ev
  · simp [libst_loopwait, g_main_loop_run, libst_hang_check, g_main_loop_quit, g_timeout_add]
  · simp only [libst_loopwait, g_main_loop_run]
    rw [(loopquit_counters _).1, (loopquit_counters _).2]
    simp [g_timeout_add]

theorem step_counters (c : Call) (s s1 : State) (v : Value)
    (h1 : s.test.total < GUINT_MOD) (h2 : s.test.succeeded < GUINT_MOD)
    (hstep : step c s = .ret v s1) :
    s1.test.total = (s.test.total + announcedCount [c]) % GUINT_MOD ∧
    s1.test.succeeded = (s.test.succeeded + resolvedCount [c]) % GUINT_MOD := by
  have hst : (step c s).state = s1 := by rw [hstep]; rfl
  cases c with
  | start name cls =>
    simp only [step, toValue_state] at hst
    obtain ⟨e1, e2⟩ := start_counters s name cls
    rw [hst] at e1 e2
    simp [announcedCount, resolvedCount, e1, e2, Nat.mod_eq_of_lt h1, Nat.mod_eq_of_lt h2]
  | end_ =>
    simp only [step, toValue_state] at hst
    obtain ⟨e1, e2⟩ := end_counters s
    rw [hst] at e1 e2
    simp [announcedCount, resolvedCount, e1, e2, Nat.mod_eq_of_lt h1, Nat.mod_eq_of_lt h2]
  | title msg =>
    simp only [step, Outcome.state] at hst
    obtain ⟨e1, e2⟩ := title_counters s msg
    rw [hst] at e1 e2
    simp [announcedCount, resolvedCount, e1, e2, Nat.mod_eq_of_lt h2]
  | success msg =>
    simp only [step, Outcome.state] at hst
    obtain ⟨e1, e2⟩ := success_counters s msg
    rw [hst] at e1 e2
    simp [announcedCount, resolvedCount, e1, e2, Nat.mod_eq_of_lt h1]
  | failed msg =>
    simp [step, libst_failed, Outcome.toValue] at hstep
  | loopwait timeout id ev =>
    simp only [step, Outcome.state] at hst
    obtain ⟨e1, e2⟩ := loopwait_counters s timeout id ev
    rw [hst] at e1 e2
    simp [announcedCount, resolvedCount, e1, e2, Nat.mod_eq_of_lt h1, Nat.mod_eq_of_lt h2]
  | loopquit =>
    simp only [step, Outcome.state] at hst
    obtain ⟨e1, e2⟩ := loopquit_counters s
    rw [hst] at e1 e2
    simp [announcedCount, resolvedCount, e1, e2, Nat.mod_eq_of_lt h1, Nat.mod_eq_of_lt h2]
  | loopcheck elapsed =>
    obtain ⟨e1, e2⟩ := title_counters s "did we timeout out of the loop"
    by_cases hz : (libst_title s "did we timeout out of the loop").test.hang_loop_id = 0
    · simp only [step, libst_loopcheck, hz, if_true, Outcome.toValue, Outcome.state] at hst
      obtain ⟨e3, e4⟩ := success_counters (libst_title s "did we timeout out of the loop")
        (some ("loop blocked for " ++ fmt_i elapsed ++ "ms"))
      rw [hst] at e3 e4
      simp [announcedCount, resolvedCount, e1, e2, e3, e4]
    · simp [step, libst_loopcheck, hz, libst_failed, Outcome.toValue] at hstep
  | set_user_data p =>
    simp only [step, Outcome.state] at hst
    subst hst
    simp [announcedCount, resolvedCount, libst_set_user_data, Nat.mod_eq_of_lt h1,
      Nat.mod_eq_of_lt h2]
  | get_user_data =>
    simp only [step, Outcome.state] at hst
    subst hst
    simp [announcedCount, resolvedCount, Nat.mod_eq_of_lt h1, Nat.mod_eq_of_lt h2]
  | finish =>
    simp only [step, Outcome.state] at hst
    subst hst
    unfold libst_finish
    dsimp only
    split_ifs <;>
      simp [announcedCount, resolvedCount, g_print, Nat.mod_eq_of_lt h1, Nat.mod_eq_of_lt h2]

theorem run_counters (cs : List Call) : ∀ (s s1 : State),
    s.test.total < GUINT_MOD → s.test.succeeded < GUINT_MOD →
    run cs s = .ret () s1 →
    s1.test.total = (s.test.total + announcedCount cs) % GUINT_MOD ∧
    s1.test.succeeded = (s.test.succeeded + resolvedCount cs) % GUINT_MOD := by
  induction cs with
  | nil =>
    intro s s1 h1 h2 hrun
    simp only [run, Outcome.ret.injEq, true_and] at hrun
    subst hrun
    simp [announcedCount, resolvedCount, Nat.mod_eq_of_lt h1, Nat.mod_eq_of_lt h2]
  | cons c cs ih =>
    intro s s1 h1 h2 hrun
    have hM : 0 < GUINT_MOD := by decide
    cases hstep : step c s with
    | exit n s2 => simp [run, hstep] at hrun
    | ret v s2 =>
      simp only [run, hstep] at hrun
      obtain ⟨e1, e2⟩ := step_counters c s s2 v h1 h2 hstep
      obtain ⟨e3, e4⟩ := ih s2 s1 (by rw [e1]; exact Nat.mod_lt _ hM)
        (by rw [e2]; exact Nat.mod_lt _ hM) hrun
      rw [announcedCount_cons, resolvedCount_cons, e3, e4, e1, e2, Nat.mod_add_mod,
        Nat.mod_add_mod, Nat.add_assoc, Nat.add_assoc]
      exact ⟨rfl, rfl⟩

theorem step_total (c : Call) (s : State) :
    (step c s).state.test.total = s.test.total ∨
    (step c s).state.test.total = (s.test.total + 1) % GUINT_MOD := by
  cases c with
  | start name cls =>
    left
    simp only [step, toValue_state]
    exact (start_counters s name cls).1
  | end_ =>
    left
    simp only [step, toValue_state]
    exact (end_counters s).1
  | title msg =>
    right
    exact (title_counters s msg).1
  | success msg =>
    left
    exact (success_counters s msg).1
  | failed msg =>
    left
    simp only [step, toValue_state, libst_failed, Outcome.state]
    split_ifs
    · cases msg <;> rfl
    · rfl
  | loopwait timeout id ev =>
    left
    exact (loopwait_counters s timeout id ev).1
  | loopquit =>
    left
    exact (loopquit_counters s).1
  | loopcheck elapsed =>
    right
    simp only [step, toValue_state, libst_loopcheck]
    split_ifs
    · simp only [Outcome.state]
      rw [(success_counters _ _).1]
      exact (title_counters s _).1
    · simp only [libst_failed, Outcome.state]
      split_ifs <;> exact (title_counters s _).1
  | set_user_data p =>
    left
    rfl
  | get_user_data =>
    left
    rfl
  | finish =>
    left
    simp only [step, Outcome.state, libst_finish]
    split_ifs <;> rfl

theorem announcedCount_titles (n : Nat) (msg : String) :
    announcedCount (List.replicate n (Call.title msg)) = n := by
  induction n with
  | zero => rfl
  | succ n ih => rw [List.replicate_succ, announcedCount, ih]

theorem resolvedCount_titles (n : Nat) (msg : String) :
    resolvedCount (List.replicate n (Call.title msg)) = 0 := by
  induction n with
  | zero => rfl
  | succ n ih => simpa [List.replicate_succ, resolvedCount] using ih

theorem run_titles (n : Nat) (msg : String) : ∀ s : State,
    ∃ s1 : State, run (List.replicate n (Call.title msg)) s = .ret () s1 ∧
      s1.test.hang_loop_id = s.test.hang_loop_id := by
  induction n with
  | zero => exact fun s => ⟨s, rfl, rfl⟩
  | succ n ih =>
    intro s
    obtain ⟨s1, h1, h2⟩ := ih (libst_title s msg)
    refine ⟨s1, ?_, ?_⟩
    · rw [List.replicate_succ]
      simpa [run, step] using h1
    · rw [h2]
      unfold libst_title
      split <;> rfl

theorem maxTitles_reach : ∃ s : State,
    run maxTitles (libst_init blank) = .ret () s ∧
    s.test.total = 4294967295 ∧ s.test.succeeded = 0 ∧ s.test.hang_loop_id = 0 := by
  obtain ⟨s, h1, h2⟩ := run_titles 4294967295 "t" (libst_init blank)
  obtain ⟨e1, e2⟩ := run_counters _ _ _ (by decide) (by decide) h1
  rw [announcedCount_titles] at e1
  rw [resolvedCount_titles] at e2
  exact ⟨s, h1, by rw [e1]; decide, by rw [e2]; decide, by rw [h2]; rfl⟩

theorem loopwait_fired_test (s : State) (timeout id : Nat) :
    (libst_loopwait s timeout id .timer_fired).test = { s.test with hang_loop_id := id } := by
  simp [libst_loopwait, g_main_loop_run, libst_hang_check, g_main_loop_quit, g_timeout_add]

theorem loopwait_quit_test (s : State) (timeout id : Nat) (hid : id ≠ 0) :
    (libst_loopwait s timeout id .callback_quit).test = { s.test with hang_loop_id := 0 } := by
  simp [libst_loopwait, g_main_loop_run, libst_loopquit, g_main_loop_quit, g_timeout_add,
    g_source_remove, hid]

theorem title_keeps_handle (s : State) (msg : String) :
    (libst_title s msg).test.hang_loop_id = s.test.hang_loop_id ∧
    (libst_title s msg).test.level = s.test.level := by
  unfold libst_title
  split <;> exact ⟨rfl, rfl⟩

theorem loopcheck_exit (s : State) (elapsed : Nat) (h : s.test.hang_loop_id ≠ 0) :
    ∃ s2 : State, libst_loopcheck s elapsed = .exit 1 s2 ∧
      s2.test.total = (s.test.total + 1) % GUINT_MOD ∧
      s2.test.succeeded = s.test.succeeded ∧
      (s.test.level ≠ .LEVEL_SILENT →
        s2.out.getLast? =
          some ("FAILED [" ++ ("hangcheck saved us after " ++ fmt_i elapsed ++ "ms")
            ++ "]\n")) := by
  obtain ⟨k1, k2⟩ := title_keeps_handle s "did we timeout out of the loop"
  obtain ⟨e1, e2⟩ := title_counters s "did we timeout out of the loop"
  have hh : (libst_title s "did we timeout out of the loop").test.hang_loop_id ≠ 0 := by
    rw [k1]; exact h
  unfold libst_loopcheck
  simp only [if_neg hh]
  unfold libst_failed
  refine ⟨_, rfl, ?_, ?_, ?_⟩
  · dsimp only
    split_ifs
    · simpa [g_print, g_free] using e1
    · exact e1
  · dsimp only
    split_ifs
    · simpa [g_print, g_free] using e2
    · exact e2
  · intro hlvl
    have hc : (libst_title s "did we timeout out of the loop").test.level = .LEVEL_ALL ∨
        (libst_title s "did we timeout out of the loop").test.level = .LEVEL_NORMAL := by
      rw [k2]
      cases hs : s.test.level
      · exact absurd hs hlvl
      · exact Or.inr rfl
      · exact Or.inl rfl
    dsimp only
    rw [if_pos hc]
    simp [g_print, g_free]

theorem loopcheck_ret (s : State) (elapsed : Nat) (h : s.test.hang_loop_id = 0) :
    ∃ s2 : State, libst_loopcheck s elapsed = .ret () s2 ∧
      s2.test.total = (s.test.total + 1) % GUINT_MOD ∧
      s2.test.succeeded = (s.test.succeeded + 1) % GUINT_MOD := by
  obtain ⟨k1, -⟩ := title_keeps_handle s "did we timeout out of the loop"
  obtain ⟨e1, e2⟩ := title_counters s "did we timeout out of the loop"
  obtain ⟨e3, e4⟩ := success_counters (libst_title s "did we timeout out of the loop")
    (some ("loop blocked for " ++ fmt_i elapsed ++ "ms"))
  have hh : (libst_title s "did we timeout out of the loop").test.hang_loop_id = 0 := by
    rw [k1]; exact h
  unfold libst_loopcheck
  simp only [if_pos hh]
  exact ⟨_, rfl, by rw [e3, e1], by rw [e4, e2]⟩

theorem start_conflict (s : State) (name : String) (cls : LibSelfTestClass)
    (h : (cls = .CLASS_AUTO ∧ s.test.class_ = .CLASS_MANUAL) ∨
      (cls = .CLASS_MANUAL ∧ s.test.class_ = .CLASS_AUTO)) :
    libst_start s name cls = .ret false s := by
  rcases h with ⟨h1, h2⟩ | ⟨h1, h2⟩ <;> simp [libst_start, h1, h2]

/-- C1 (amended): from a freshly initialised harness, at any class filter
and verbosity, a sequence of groups of resolved checks (each `libst_title`
immediately followed by its `libst_success`, between `libst_start` and
`libst_end`) that announces fewer than 2^32 checks keeps
`succeeded <= total` after every call, the call that terminates the process
included. -/
theorem resolved_checks_keep_succeeded_le_total (s0 : State) (cls : LibSelfTestClass)
    (lvl : LibSelfTestLevel) (gs : List Group) (h : checkCount gs < GUINT_MOD) :
    ∀ o ∈ trace (suite gs) (configure (libst_init s0) cls lvl),
      o.state.test.succeeded ≤ o.state.test.total :=
  suite_keeps_order gs _ rfl (by simpa [configure, libst_init] using h)

/-- C1 (witness): one group holding one check, at verbosity NORMAL. -/
theorem resolved_checks_keep_succeeded_le_total_witness :
    checkCount [mathGroup] < GUINT_MOD ∧
    ∀ o ∈ trace (suite [mathGroup])
        (configure (libst_init blank) .CLASS_AUTO .LEVEL_NORMAL),
      o.state.test.succeeded ≤ o.state.test.total :=
  ⟨by decide,
   resolved_checks_keep_succeeded_le_total blank .CLASS_AUTO .LEVEL_NORMAL [mathGroup]
     (by decide)⟩

/-- C1 (counterexample): in a group of 4294967296 resolved checks run from a
fresh harness, the last `libst_title` wraps `total` to 0 while `succeeded`
holds 4294967295, so `succeeded <= total` fails after that call. -/
theorem resolved_checks_wrap_counterexample :
    ∃ o ∈ trace (suite [wrapGroup]) (configure (libst_init blank) .CLASS_AUTO .LEVEL_ALL),
      o.state.test.total = 0 ∧ o.state.test.succeeded = 4294967295 ∧
      ¬ o.state.test.succeeded ≤ o.state.test.total := by
  have hstart : step (Call.start "g" .CLASS_AUTO)
      (configure (libst_init blank) .CLASS_AUTO .LEVEL_ALL) =
      .ret (.bool true)
        { configure (libst_init blank) .CLASS_AUTO .LEVEL_ALL with
          test := { (configure (libst_init blank) .CLASS_AUTO .LEVEL_ALL).test with
            type := some "g", started := true } } := by
    decide
  obtain ⟨s1, e1, e2, e3⟩ := checks_reach
    (List.replicate 4294967295 ({ title := "t", msg := none } : Check))
    [Call.title "t", Call.success none, Call.end_]
    { configure (libst_init blank) .CLASS_AUTO .LEVEL_ALL with
      test := { (configure (libst_init blank) .CLASS_AUTO .LEVEL_ALL).test with
        type := some "g", started := true } }
    (by decide) (by decide)
  rw [List.length_replicate] at e1 e2
  have e1' : s1.test.total = 4294967295 := by rw [e1]; decide
  have e2' : s1.test.succeeded = 4294967295 := by rw [e2]; decide
  obtain ⟨ht1, ht2⟩ := title_counters s1 "t"
  refine ⟨.ret .void (libst_title s1 "t"), ?_, ?_, ?_, ?_⟩
  · have hsuite : suite [wrapGroup] = Call.start "g" .CLASS_AUTO ::
        (checkCalls (List.replicate 4294967295 ({ title := "t", msg := none } : Check))
          ++ [Call.title "t", Call.success none, Call.end_]) := by
      have hone : checkCalls [({ title := "t", msg := none } : Check)] =
          [Call.title "t", Call.success none] := rfl
      simp only [suite, wrapGroup, Group.calls]
      rw [checkCalls_append, hone, List.append_nil, List.append_assoc]
      rfl
    rw [hsuite, mem_trace_cons]
    refine Or.inr ⟨_, _, hstart, e3 _ ?_⟩
    rw [mem_trace_cons]
    exact Or.inl rfl
  · show (libst_title s1 "t").test.total = 0
    rw [ht1, e1']
    decide
  · show (libst_title s1 "t").test.succeeded = 4294967295
    rw [ht2, e2']
  · show ¬ (libst_title s1 "t").test.succeeded ≤ (libst_title s1 "t").test.total
    rw [ht1, ht2, e1', e2']
    decide

/-- C2 (amended): in every state reached from `libst_init` by a sequence of
public calls that returns normally, `succeeded <= total` holds provided the
sequence records at most as many successes as it announces checks
(`libst_loopcheck` counting as both) and announces fewer than 2^32 checks. -/
theorem balanced_calls_keep_succeeded_le_total (s0 : State) (cs : List Call) (s : State)
    (hrun : run cs (libst_init s0) = .ret () s)
    (hbal : resolvedCount cs ≤ announcedCount cs)
    (hlt : announcedCount cs < GUINT_MOD) :
    s.test.succeeded ≤ s.test.total := by
  have z1 : (libst_init s0).test.total = 0 := rfl
  have z2 : (libst_init s0).test.succeeded = 0 := rfl
  have hM : 0 < GUINT_MOD := by decide
  obtain ⟨e1, e2⟩ := run_counters cs (libst_init s0) s (by rw [z1]; exact hM)
    (by rw [z2]; exact hM) hrun
  rw [z1, Nat.zero_add, Nat.mod_eq_of_lt hlt] at e1
  rw [z2, Nat.zero_add, Nat.mod_eq_of_lt (Nat.lt_of_le_of_lt hbal hlt)] at e2
  omega

/-- C2 (witness): a group with a check, a wait ended by a callback and its
`libst_loopcheck`; two checks announced, two successes. -/
theorem balanced_calls_keep_succeeded_le_total_witness :
    run balancedCalls (libst_init blank) =
        .ret () (run balancedCalls (libst_init blank)).state ∧
    resolvedCount balancedCalls ≤ announcedCount balancedCalls ∧
    announcedCount balancedCalls < GUINT_MOD ∧
    (run balancedCalls (libst_init blank)).state.test.succeeded
      ≤ (run balancedCalls (libst_init blank)).state.test.total :=
  ⟨by decide, by decide, by decide,
   balanced_calls_keep_succeeded_le_total blank balancedCalls _ (by decide) (by decide)
     (by decide)⟩

/-- C2 (counterexample): `libst_success` right after `libst_init` returns
normally and leaves `succeeded = 1` above `total = 0`. -/
theorem success_without_title_counterexample :
    ∃ s : State, run [Call.success none] (libst_init blank) = .ret () s ∧
      s.test.total = 0 ∧ s.test.succeeded = 1 ∧ ¬ s.test.succeeded ≤ s.test.total :=
  ⟨libst_success (libst_init blank) none, by decide, by decide, by decide, by decide⟩

/-- C3 (amended): at every verbosity level `libst_title` sets `total` to
`(total + 1) mod 2^32`, which is an increase by exactly one whenever `total`
is below `G_MAXUINT = 2^32 - 1`, and leaves `succeeded`, `started`, `class`,
`level`, the group name and the timeout handle unchanged; and whenever `total`
is below `G_MAXUINT`, no public call other than `libst_init` ends (by
returning or by terminating the process) with `total` smaller than before. -/
theorem libst_title_increments_total (s : State) (msg : String) :
    (libst_title s msg).test.total = (s.test.total + 1) % GUINT_MOD ∧
    (s.test.total + 1 < GUINT_MOD → (libst_title s msg).test.total = s.test.total + 1) ∧
    (libst_title s msg).test.succeeded = s.test.succeeded ∧
    (libst_title s msg).test.started = s.test.started ∧
    (libst_title s msg).test.class_ = s.test.class_ ∧
    (libst_title s msg).test.level = s.test.level ∧
    (libst_title s msg).test.type = s.test.type ∧
    (libst_title s msg).test.hang_loop_id = s.test.hang_loop_id ∧
    (∀ c : Call, s.test.total + 1 < GUINT_MOD →
      s.test.total ≤ (step c s).state.test.total) := by
  refine ⟨(title_counters s msg).1, ?_, (title_counters s msg).2, ?_, ?_, ?_, ?_, ?_, ?_⟩
  · intro h
    rw [(title_counters s msg).1, Nat.mod_eq_of_lt h]
  · unfold libst_title; split <;> rfl
  · unfold libst_title; split <;> rfl
  · unfold libst_title; split <;> rfl
  · unfold libst_title; split <;> rfl
  · unfold libst_title; split <;> rfl
  · intro c h
    rcases step_total c s with e | e
    · rw [e]
    · rw [e, Nat.mod_eq_of_lt h]
      exact Nat.le_succ _

/-- C3 (witness): a title announced in an open group at `total = 0`. -/
theorem libst_title_increments_total_witness :
    openGroup.test.total + 1 < GUINT_MOD ∧
    (libst_title openGroup "add").test.total = openGroup.test.total + 1 ∧
    openGroup.test.total ≤ (step (Call.loopcheck 3) openGroup).state.test.total :=
  ⟨by decide,
   (libst_title_increments_total openGroup "add").2.1 (by decide),
   (libst_title_increments_total openGroup "add").2.2.2.2.2.2.2.2 (Call.loopcheck 3)
     (by decide)⟩

/-- C3 (counterexample): `libst_init` followed by 4294967295 calls of
`libst_title` returns with `total = G_MAXUINT`; one more `libst_title` leaves
`total = 0`: not an increase by one, and smaller than before the call. -/
theorem title_wraps_total_counterexample :
    ∃ s : State, run maxTitles (libst_init blank) = .ret () s ∧
      s.test.total = 4294967295 ∧
      (libst_title s "t").test.total = 0 ∧
      ¬ (libst_title s "t").test.total = s.test.total + 1 ∧
      (step (Call.title "t") s).state.test.total < s.test.total := by
  obtain ⟨s, hrun, ht, -, -⟩ := maxTitles_reach
  have e : (libst_title s "t").test.total = 0 := by
    rw [(title_counters s "t").1, ht]
    decide
  refine ⟨s, hrun, ht, e, ?_, ?_⟩
  · rw [e, ht]
    decide
  · show (libst_title s "t").test.total < s.test.total
    rw [e, ht]
    decide

/-- C4: when the requested class is AUTO and the filter MANUAL, or the
requested class MANUAL and the filter AUTO, `libst_start` returns `FALSE` in
the very state it was called in (nothing printed, no field changed), also when
a group is open; and it never returns `FALSE` when the requested class or the
filter is ALL, or when the two are equal. -/
theorem libst_start_class_filter (s : State) (name : String) (cls : LibSelfTestClass) :
    ((cls = .CLASS_AUTO ∧ s.test.class_ = .CLASS_MANUAL) ∨
      (cls = .CLASS_MANUAL ∧ s.test.class_ = .CLASS_AUTO) →
        libst_start s name cls = .ret false s) ∧
    (cls = .CLASS_ALL ∨ s.test.class_ = .CLASS_ALL ∨ cls = s.test.class_ →
        ∀ s1 : State, libst_start s name cls ≠ .ret false s1) := by
  constructor
  · exact start_conflict s name cls
  · intro h s1
    have hno1 : ¬ (cls = .CLASS_AUTO ∧ s.test.class_ = .CLASS_MANUAL) := by
      rintro ⟨h1, h2⟩
      rcases h with h | h | h
      · rw [h1] at h; cases h
      · rw [h2] at h; cases h
      · rw [h1, h2] at h; cases h
    have hno2 : ¬ (cls = .CLASS_MANUAL ∧ s.test.class_ = .CLASS_AUTO) := by
      rintro ⟨h1, h2⟩
      rcases h with h | h | h
      · rw [h1] at h; cases h
      · rw [h2] at h; cases h
      · rw [h1, h2] at h; cases h
    unfold libst_start
    rw [if_neg hno1, if_neg hno2]
    split_ifs <;> simp

/-- C4 (witness): with a group open and the filter AUTO, a MANUAL request
returns `FALSE` in the same state, and an ALL request does not return
`FALSE`. -/
theorem libst_start_class_filter_witness :
    libst_start openGroup "x" .CLASS_MANUAL = .ret false openGroup ∧
    libst_start openGroup "x" .CLASS_ALL ≠ .ret false openGroup :=
  ⟨(libst_start_class_filter openGroup "x" .CLASS_MANUAL).1 (Or.inr ⟨rfl, rfl⟩),
   (libst_start_class_filter openGroup "x" .CLASS_ALL).2 (Or.inl rfl) openGroup⟩

/-- C5 (amended): with a group open, `libst_start` prints
"Not ended test! Cannot start!" and terminates the process with status 1 for
every name and every requested class that does not conflict with the class
filter; a conflicting class (AUTO against MANUAL, MANUAL against AUTO) is
answered first, by returning `FALSE`. -/
theorem libst_start_open_group (s : State) (name : String) (cls : LibSelfTestClass)
    (hopen : s.test.started = true) :
    (¬ ((cls = .CLASS_AUTO ∧ s.test.class_ = .CLASS_MANUAL) ∨
        (cls = .CLASS_MANUAL ∧ s.test.class_ = .CLASS_AUTO)) →
      libst_start s name cls = .exit 1 (g_print s "Not ended test! Cannot start!\n")) ∧
    ((cls = .CLASS_AUTO ∧ s.test.class_ = .CLASS_MANUAL) ∨
        (cls = .CLASS_MANUAL ∧ s.test.class_ = .CLASS_AUTO) →
      libst_start s name cls = .ret false s) := by
  constructor
  · intro h
    rw [not_or] at h
    unfold libst_start
    rw [if_neg h.1, if_neg h.2, if_pos hopen]
  · exact start_conflict s name cls

/-- C5 (witness): a second `libst_start` of class AUTO while group "a" is
open under the filter AUTO. -/
theorem libst_start_open_group_witness :
    openGroup.test.started = true ∧
    libst_start openGroup "b" .CLASS_AUTO =
      .exit 1 (g_print openGroup "Not ended test! Cannot start!\n") :=
  ⟨rfl, (libst_start_open_group openGroup "b" .CLASS_AUTO rfl).1 (by decide)⟩

/-- C5 (counterexample): `libst_init; libst_start ("a", CLASS_AUTO)` opens a
group, and `libst_start ("b", CLASS_MANUAL)` then returns `FALSE` normally
instead of terminating the process. -/
theorem second_start_returns_counterexample :
    ∃ s : State, run [Call.start "a" .CLASS_AUTO] (libst_init blank) = .ret () s ∧
      s.test.started = true ∧
      libst_start s "b" .CLASS_MANUAL = .ret false s :=
  ⟨openGroup, by decide, by decide, by decide⟩

/-- C6: when no group is open `libst_end` prints
"Not started test! Cannot finish!" (with its newline) and terminates the
process with status 1, whatever the level and the timeout handle; and it
returns normally if and only if a group is open. -/
theorem libst_end_requires_open_group (s : State) :
    (s.test.started = false →
      libst_end s = .exit 1 (g_print s "Not started test! Cannot finish!\n")) ∧
    ((∃ s1 : State, libst_end s = .ret () s1) ↔ s.test.started = true) := by
  constructor
  · intro h
    unfold libst_end
    rw [if_pos h]
  · cases hs : s.test.started with
    | false => simp [libst_end, hs]
    | true => simp [libst_end, hs]

/-- C6 (witness): `libst_end` right after `libst_init` terminates the
process, and `libst_end` in an open group returns. -/
theorem libst_end_requires_open_group_witness :
    libst_end (libst_init blank) =
      .exit 1 (g_print (libst_init blank) "Not started test! Cannot finish!\n") ∧
    ∃ s1 : State, libst_end openGroup = .ret () s1 :=
  ⟨(libst_end_requires_open_group (libst_init blank)).1 rfl,
   (libst_end_requires_open_group openGroup).2.2 rfl⟩

/-- C7: `libst_finish` returns 0 if `succeeded == total` and 1 otherwise; so
it returns a positive value whenever `succeeded < total`, and 0 only when the
counters are equal. -/
theorem libst_finish_status (s : State) :
    (libst_finish s).1 = (if s.test.succeeded = s.test.total then 0 else 1) ∧
    (s.test.succeeded < s.test.total → 0 < (libst_finish s).1) ∧
    ((libst_finish s).1 = 0 → s.test.succeeded = s.test.total) := by
  unfold libst_finish
  by_cases h : s.test.succeeded = s.test.total
  · simp [h]
  · simp only [if_neg h]
    refine ⟨trivial, fun _ => by decide, fun h0 => ?_⟩
    exact absurd h0 (by decide)

/-- C7 (witness): one check announced and not resolved gives status 1. -/
theorem libst_finish_status_witness :
    (libst_title openGroup "add").test.succeeded < (libst_title openGroup "add").test.total ∧
    0 < (libst_finish (libst_title openGroup "add")).1 :=
  ⟨by decide, (libst_finish_status (libst_title openGroup "add")).2.1 (by decide)⟩

/-- C8 (amended): with the verbosity set to NORMAL after `libst_init`, the
run `libst_start ("math", CLASS_AUTO); libst_title ("add"); libst_success (NULL);
libst_end; libst_finish` prints "math...", "OK", then "test passes (1/1) : " and
"ALL OKAY", and `libst_finish` returns 0; at the verbosity `libst_init` itself
sets (ALL) it prints "> check #1 math: add..." and "...OK" before the same
summary, and `libst_finish` returns 0 as well. -/
theorem math_run_output (s0 : State) :
    (∃ s : State,
      run mathCalls (configure (libst_init s0) .CLASS_AUTO .LEVEL_NORMAL) = .ret () s ∧
      s.out = s0.out ++ ["math...", "OK\n", "test passes (1/1) : ", "ALL OKAY\n"] ∧
      (trace mathCalls (configure (libst_init s0) .CLASS_AUTO .LEVEL_NORMAL)).getLast?
        = some (.ret (.int 0) s)) ∧
    (∃ s : State,
      run mathCalls (libst_init s0) = .ret () s ∧
      s.out = s0.out ++ ["> check #1\tmath: \tadd...", "...OK\n",
        "test passes (1/1) : ", "ALL OKAY\n"] ∧
      (trace mathCalls (libst_init s0)).getLast? = some (.ret (.int 0) s)) := by
  constructor
  · refine ⟨(run mathCalls (configure (libst_init s0) .CLASS_AUTO .LEVEL_NORMAL)).state,
      rfl, ?_, rfl⟩
    simp [run, step, mathCalls, libst_start, libst_end, libst_title, libst_success,
      libst_finish, configure, libst_init, g_print, g_free, g_source_remove,
      Outcome.toValue, Outcome.state, fmt_s, fmt_u, GUINT_MOD]
    decide
  · refine ⟨(run mathCalls (libst_init s0)).state, rfl, ?_, rfl⟩
    simp [run, step, mathCalls, libst_start, libst_end, libst_title, libst_success,
      libst_finish, libst_init, g_print, g_free, g_source_remove,
      Outcome.toValue, Outcome.state, fmt_s, fmt_u, GUINT_MOD]
    decide

/-- C8 (counterexample): run right after `libst_init`, whose verbosity is
ALL, the sequence prints "> check #1 math: add......OK" before the summary;
the text "math...OK" occurs nowhere in the output. -/
theorem math_run_default_level_counterexample :
    ∃ s : State, run mathCalls (libst_init blank) = .ret () s ∧
      s.printed = "> check #1\tmath: \tadd......OK\ntest passes (1/1) : ALL OKAY\n" ∧
      ¬ ("math...OK".data <:+: s.printed.data) :=
  ⟨_, rfl, by decide, by decide⟩

/-- C9 (amended): after `libst_loopwait` returns because the timer fired,
with no `libst_loopquit` call, the timeout handle still holds the id of the
source (non-zero), so a following `libst_loopcheck` announces its check
(`total` becomes `(total + 1) mod 2^32`: one more, unless it was `G_MAXUINT`),
prints the failure when the level is NORMAL or ALL, and terminates the process
with status 1, `succeeded` unchanged. -/
theorem loopcheck_after_timeout (s : State) (timeout id elapsed : Nat) (hid : id ≠ 0) :
    (libst_loopwait s timeout id .timer_fired).test.hang_loop_id = id ∧
    (libst_loopwait s timeout id .timer_fired).test.hang_loop_id ≠ 0 ∧
    ∃ s2 : State,
      libst_loopcheck (libst_loopwait s timeout id .timer_fired) elapsed = .exit 1 s2 ∧
      s2.test.total = (s.test.total + 1) % GUINT_MOD ∧
      (s.test.total + 1 < GUINT_MOD → s2.test.total = s.test.total + 1) ∧
      s2.test.succeeded = s.test.succeeded ∧
      (s.test.level ≠ .LEVEL_SILENT →
        s2.out.getLast? =
          some ("FAILED [" ++ ("hangcheck saved us after " ++ fmt_i elapsed ++ "ms")
            ++ "]\n")) := by
  have hw := loopwait_fired_test s timeout id
  have hne : (libst_loopwait s timeout id .timer_fired).test.hang_loop_id ≠ 0 := by
    rw [hw]; exact hid
  obtain ⟨s2, hx, e1, e2, e3⟩ := loopcheck_exit _ elapsed hne
  rw [hw] at e1 e2 e3
  refine ⟨by rw [hw], hne, s2, hx, e1, ?_, e2, e3⟩
  intro hlt
  rw [e1]
  exact Nat.mod_eq_of_lt hlt

/-- C9 (witness): a wait of 100 ms on source 7 that times out in an open
group. -/
theorem loopcheck_after_timeout_witness :
    (7 : Nat) ≠ 0 ∧
    (libst_loopwait openGroup 100 7 .timer_fired).test.hang_loop_id = 7 ∧
    ∃ s2 : State,
      libst_loopcheck (libst_loopwait openGroup 100 7 .timer_fired) 100 = .exit 1 s2 ∧
      s2.test.total = (openGroup.test.total + 1) % GUINT_MOD ∧
      (openGroup.test.total + 1 < GUINT_MOD → s2.test.total = openGroup.test.total + 1) ∧
      s2.test.succeeded = openGroup.test.succeeded ∧
      (openGroup.test.level ≠ .LEVEL_SILENT →
        s2.out.getLast? =
          some ("FAILED [" ++ ("hangcheck saved us after " ++ fmt_i 100 ++ "ms") ++ "]\n")) :=
  ⟨by decide,
   (loopcheck_after_timeout openGroup 100 7 100 (by decide)).1,
   (loopcheck_after_timeout openGroup 100 7 100 (by decide)).2.2⟩

/-- C9 (counterexample): `libst_init` followed by 4294967295 calls of
`libst_title` leaves `total = G_MAXUINT`; after a wait that times out, the
following `libst_loopcheck` terminates the process with `total = 0`: the
counter did not increase by one. -/
theorem loopcheck_after_timeout_wrap_counterexample :
    ∃ s s2 : State, run maxTitles (libst_init blank) = .ret () s ∧
      s.test.total = 4294967295 ∧
      libst_loopcheck (libst_loopwait s 100 7 .timer_fired) 100 = .exit 1 s2 ∧
      s2.test.total = 0 ∧ ¬ s2.test.total = s.test.total + 1 := by
  obtain ⟨s, hrun, ht, -, -⟩ := maxTitles_reach
  have hw := loopwait_fired_test s 100 7
  obtain ⟨s2, hx, e1, -, -⟩ := loopcheck_exit (libst_loopwait s 100 7 .timer_fired) 100
    (by rw [hw]; exact Nat.succ_ne_zero 6)
  rw [hw] at e1
  have e : s2.test.total = 0 := by
    rw [e1]
    show (s.test.total + 1) % GUINT_MOD = 0
    rw [ht]
    decide
  refine ⟨s, s2, hrun, ht, hx, e, ?_⟩
  rw [e, ht]
  decide

/-- C10 (amended): after `libst_loopwait` is ended by a `libst_loopquit`
call made from a callback before the timer fires, the timeout handle is 0 and
the registration has been removed (one `g_source_remove` on the armed source,
the set of attached sources as before the wait), so a following
`libst_loopcheck` returns normally with `total` and `succeeded` each
incremented as a `guint`: `(n + 1) mod 2^32`, one more unless the counter was
`G_MAXUINT`. -/
theorem loopcheck_after_cancel (s : State) (timeout id elapsed : Nat) (hid : id ≠ 0) :
    (libst_loopwait s timeout id .callback_quit).test.hang_loop_id = 0 ∧
    (libst_loopwait s timeout id .callback_quit).removed = s.removed ++ [(id, true)] ∧
    (libst_loopwait s timeout id .callback_quit).sources = s.sources ∧
    ∃ s2 : State,
      libst_loopcheck (libst_loopwait s timeout id .callback_quit) elapsed = .ret () s2 ∧
      s2.test.total = (s.test.total + 1) % GUINT_MOD ∧
      s2.test.succeeded = (s.test.succeeded + 1) % GUINT_MOD ∧
      (s.test.total + 1 < GUINT_MOD → s2.test.total = s.test.total + 1) ∧
      (s.test.succeeded + 1 < GUINT_MOD → s2.test.succeeded = s.test.succeeded + 1) := by
  have hw := loopwait_quit_test s timeout id hid
  have hz : (libst_loopwait s timeout id .callback_quit).test.hang_loop_id = 0 := by
    rw [hw]
  obtain ⟨s2, hx, e1, e2⟩ := loopcheck_ret _ elapsed hz
  rw [hw] at e1 e2
  refine ⟨hz, ?_, ?_, s2, hx, e1, e2, ?_, ?_⟩
  · simp [libst_loopwait, g_main_loop_run, libst_loopquit, g_main_loop_quit, g_timeout_add,
      g_source_remove, hid]
  · simp [libst_loopwait, g_main_loop_run, libst_loopquit, g_main_loop_quit, g_timeout_add,
      g_source_remove, hid]
  · intro hlt
    rw [e1]
    exact Nat.mod_eq_of_lt hlt
  · intro hlt
    rw [e2]
    exact Nat.mod_eq_of_lt hlt

/-- C10 (witness): a wait of 100 ms on source 7, ended by a callback, in an
open group. -/
theorem loopcheck_after_cancel_witness :
    (7 : Nat) ≠ 0 ∧
    (libst_loopwait openGroup 100 7 .callback_quit).test.hang_loop_id = 0 ∧
    (libst_loopwait openGroup 100 7 .callback_quit).removed
      = openGroup.removed ++ [(7, true)] ∧
    (libst_loopwait openGroup 100 7 .callback_quit).sources = openGroup.sources ∧
    ∃ s2 : State,
      libst_loopcheck (libst_loopwait openGroup 100 7 .callback_quit) 3 = .ret () s2 ∧
      s2.test.total = (openGroup.test.total + 1) % GUINT_MOD ∧
      s2.test.succeeded = (openGroup.test.succeeded + 1) % GUINT_MOD ∧
      (openGroup.test.total + 1 < GUINT_MOD → s2.test.total = openGroup.test.total + 1) ∧
      (openGroup.test.succeeded + 1 < GUINT_MOD →
        s2.test.succeeded = openGroup.test.succeeded + 1) :=
  ⟨by decide, loopcheck_after_cancel openGroup 100 7 3 (by decide)⟩

/-- C10 (counterexample): `libst_init` followed by 4294967295 calls of
`libst_title` leaves `total = G_MAXUINT`; after a wait ended by a callback's
`libst_loopquit`, the following `libst_loopcheck` returns normally with
`total = 0`: the counter did not increase by one. -/
theorem loopcheck_after_cancel_wrap_counterexample :
    ∃ s s2 : State, run maxTitles (libst_init blank) = .ret () s ∧
      s.test.total = 4294967295 ∧
      libst_loopcheck (libst_loopwait s 100 7 .callback_quit) 100 = .ret () s2 ∧
      s2.test.total = 0 ∧ ¬ s2.test.total = s.test.total + 1 := by
  obtain ⟨s, hrun, ht, -, -⟩ := maxTitles_reach
  have hw := loopwait_quit_test s 100 7 (by decide)
  obtain ⟨s2, hx, e1, -⟩ := loopcheck_ret (libst_loopwait s 100 7 .callback_quit) 100
    (by rw [hw])
  rw [hw] at e1
  have e : s2.test.total = 0 := by
    rw [e1]
    show (s.test.total + 1) % GUINT_MOD = 0
    rw [ht]
    decide
  refine ⟨s, s2, hrun, ht, hx, e, ?_⟩
  rw [e, ht]
  decide

/-! ## The timeout handle -/

theorem handleAfter_cons (c : Call) (cs : List Call) (h : Nat) :
    handleAfter (c :: cs) h = handleAfter cs (handleAfter [c] h) := by
  cases c with
  | loopwait timeout id ev => cases ev <;> rfl
  | _ => rfl

theorem step_handle (c : Call) (s s1 : State) (v : Value) (hstep : step c s = .ret v s1) :
    s1.test.hang_loop_id = handleAfter [c] s.test.hang_loop_id := by
  cases c with
  | start name cls =>
    simp only [step, libst_start] at hstep
    split_ifs at hstep <;> simp only [Outcome.toValue, Outcome.ret.injEq] at hstep
    · obtain ⟨-, rfl⟩ := hstep; rfl
    · obtain ⟨-, rfl⟩ := hstep; rfl
    · cases hstep
    · obtain ⟨-, rfl⟩ := hstep; rfl
    · obtain ⟨-, rfl⟩ := hstep; rfl
  | end_ =>
    have hst : (step Call.end_ s).state = s1 := by rw [hstep]; rfl
    simp only [step, toValue_state] at hst
    subst hst
    by_cases h1 : s.test.started = false
    · simp [step, libst_end, h1, Outcome.toValue] at hstep
    · by_cases hl : s.test.level = .LEVEL_NORMAL <;>
        by_cases hh : s.test.hang_loop_id = 0 <;>
        simp [libst_end, h1, hl, hh, handleAfter, Outcome.state, g_free, g_print,
          g_source_remove]
  | title msg =>
    simp only [step, Outcome.ret.injEq] at hstep
    obtain ⟨-, rfl⟩ := hstep
    exact (title_keeps_handle s msg).1
  | success msg =>
    simp only [step, Outcome.ret.injEq] at hstep
    obtain ⟨-, rfl⟩ := hstep
    unfold libst_success
    split
    · cases msg <;> rfl
    · rfl
  | failed msg =>
    simp [step, libst_failed, Outcome.toValue] at hstep
  | loopwait timeout id ev =>
    simp only [step, Outcome.ret.injEq] at hstep
    obtain ⟨-, rfl⟩ := hstep
    cases ev
    · rw [loopwait_fired_test]; rfl
    · by_cases hid : id = 0
      · subst hid
        simp [libst_loopwait, g_main_loop_run, libst_loopquit, g_main_loop_quit,
          g_timeout_add, handleAfter]
      · rw [loopwait_quit_test s timeout id hid]; rfl
  | loopquit =>
    simp only [step, Outcome.ret.injEq] at hstep
    obtain ⟨-, rfl⟩ := hstep
    unfold libst_loopquit
    dsimp only
    split_ifs with h0
    · simp [g_main_loop_quit, g_source_remove, handleAfter]
    · simp only [not_not] at h0
      simp [g_main_loop_quit, handleAfter, h0]
  | loopcheck elapsed =>
    by_cases hz : s.test.hang_loop_id = 0
    · have hh : (libst_title s "did we timeout out of the loop").test.hang_loop_id = 0 := by
        rw [(title_keeps_handle s _).1]; exact hz
      simp only [step, libst_loopcheck, if_pos hh, Outcome.toValue, Outcome.ret.injEq] at hstep
      obtain ⟨-, rfl⟩ := hstep
      show (libst_success _ _).test.hang_loop_id = s.test.hang_loop_id
      rw [← (title_keeps_handle s "did we timeout out of the loop").1]
      unfold libst_success
      split <;> rfl
    · obtain ⟨s2, hx, -⟩ := loopcheck_exit s elapsed hz
      simp [step, hx, Outcome.toValue] at hstep
  | set_user_data p =>
    simp only [step, Outcome.ret.injEq] at hstep
    obtain ⟨-, rfl⟩ := hstep
    rfl
  | get_user_data =>
    simp only [step, Outcome.ret.injEq] at hstep
    obtain ⟨-, rfl⟩ := hstep
    rfl
  | finish =>
    simp only [step, Outcome.ret.injEq] at hstep
    obtain ⟨-, rfl⟩ := hstep
    unfold libst_finish
    dsimp only
    split_ifs <;> rfl

theorem run_handle (cs : List Call) : ∀ (s s1 : State),
    run cs s = .ret () s1 → s1.test.hang_loop_id = handleAfter cs s.test.hang_loop_id := by
  induction cs with
  | nil =>
    intro s s1 hrun
    simp only [run, Outcome.ret.injEq, true_and] at hrun
    subst hrun
    rfl
  | cons c cs ih =>
    intro s s1 hrun
    cases hstep : step c s with
    | exit n s2 => simp [run, hstep] at hrun
    | ret v s2 =>
      simp only [run, hstep] at hrun
      rw [handleAfter_cons, ← step_handle c s s2 v hstep]
      exact ih s2 s1 hrun

/-- C11 (amended): in every state reached from `libst_init` by public calls
that return normally, the timeout handle is 0 unless the last call among
`libst_loopwait`, `libst_loopquit` and `libst_end` was a `libst_loopwait`
ended by the timer firing; the handle then still holds the id of the fired
source, because the timer callback `libst_hang_check` changes no field of the
harness.  A wait ended by a callback's `libst_loopquit` returns with the
handle 0. -/
theorem handle_after_calls (s0 : State) (cs : List Call) (s : State)
    (hrun : run cs (libst_init s0) = .ret () s) :
    s.test.hang_loop_id = handleAfter cs 0 ∧
    (libst_hang_check s).2.test = s.test ∧
    (libst_hang_check s).1 = false ∧
    (∀ timeout id : Nat,
      (libst_loopwait s timeout id .timer_fired).test.hang_loop_id = id ∧
      (libst_loopwait s timeout id .callback_quit).test.hang_loop_id = 0) := by
  refine ⟨?_, rfl, rfl, ?_⟩
  · have h := run_handle cs (libst_init s0) s hrun
    rw [h]
    rfl
  · intro timeout id
    constructor
    · rw [loopwait_fired_test]
    · have h := step_handle (Call.loopwait timeout id .callback_quit) s _ Value.void rfl
      rw [h]
      rfl

/-- C11 (witness): a group in which a wait times out and `libst_end` then
clears the handle. -/
theorem handle_after_calls_witness :
    run timedOutGroup (libst_init blank) =
        .ret () (run timedOutGroup (libst_init blank)).state ∧
    (run timedOutGroup (libst_init blank)).state.test.hang_loop_id
      = handleAfter timedOutGroup 0 ∧
    handleAfter timedOutGroup 0 = 0 ∧
    handleAfter [Call.start "a" .CLASS_AUTO, Call.loopwait 100 7 .timer_fired] 0 = 7 :=
  ⟨by decide,
   (handle_after_calls blank timedOutGroup _ (by decide)).1,
   by decide, by decide⟩

/-- C11 (counterexample): `libst_init; libst_loopwait (100)` ended by the
timer returns with no wait in progress (the loop has stopped and the source is
gone) and the handle still 7, not 0. -/
theorem handle_after_timeout_counterexample :
    ∃ s : State, run [Call.loopwait 100 7 .timer_fired] (libst_init blank) = .ret () s ∧
      s.loop_running = false ∧ s.sources = [] ∧
      s.test.hang_loop_id = 7 ∧ ¬ s.test.hang_loop_id = 0 :=
  ⟨libst_loopwait (libst_init blank) 100 7 .timer_fired,
   by decide, by decide, by decide, by decide, by decide⟩

/-- C12: `libst_failed` never returns: in every state and for every format
argument it terminates the process with status 1, no field of the harness
changed; when the level is NORMAL or ALL it prints "FAILED" (no message) or
"FAILED [message]", and when the level is SILENT it prints nothing. -/
theorem libst_failed_exits (s : State) (msg : Option String) :
    (∃ s1 : State, libst_failed s msg = .exit 1 s1 ∧ s1.test = s.test) ∧
    (∀ s1 : State, libst_failed s msg ≠ .ret () s1) ∧
    (s.test.level = .LEVEL_NORMAL ∨ s.test.level = .LEVEL_ALL →
      (libst_failed s none).state.out = s.out ++ ["FAILED\n"] ∧
      ∀ m : String,
        (libst_failed s (some m)).state.out = s.out ++ ["FAILED [" ++ m ++ "]\n"]) ∧
    (s.test.level = .LEVEL_SILENT → (libst_failed s msg).state.out = s.out) := by
  refine ⟨?_, ?_, ?_, ?_⟩
  · refine ⟨_, rfl, ?_⟩
    dsimp only
    split_ifs
    · cases msg <;> rfl
    · rfl
  · intro s1 h
    simp [libst_failed] at h
  · intro h
    have h2 : s.test.level = .LEVEL_ALL ∨ s.test.level = .LEVEL_NORMAL := h.symm
    constructor
    · simp [libst_failed, h2, Outcome.state, g_print, g_free]
    · intro m
      simp [libst_failed, h2, Outcome.state, g_print, g_free]
  · intro h
    simp [libst_failed, h, Outcome.state]

/-- C12 (witness): a failure with a message at level NORMAL, and one at
level SILENT. -/
theorem libst_failed_exits_witness :
    (libst_failed (configure openGroup .CLASS_AUTO .LEVEL_NORMAL) (some "bad")).state.out
      = (configure openGroup .CLASS_AUTO .LEVEL_NORMAL).out ++ ["FAILED [" ++ "bad" ++ "]\n"] ∧
    (libst_failed (configure openGroup .CLASS_AUTO .LEVEL_SILENT) (some "bad")).state.out
      = (configure openGroup .CLASS_AUTO .LEVEL_SILENT).out :=
  ⟨((libst_failed_exits (configure openGroup .CLASS_AUTO .LEVEL_NORMAL) none).2.2.1
      (Or.inl rfl)).2 "bad",
   (libst_failed_exits (configure openGroup .CLASS_AUTO .LEVEL_SILENT) (some "bad")).2.2.2
      rfl⟩

theorem resolvedCount_successes (n : Nat) (msg : Option String) :
    resolvedCount (List.replicate n (Call.success msg)) = n := by
  induction n with
  | zero => rfl
  | succ n ih => rw [List.replicate_succ, resolvedCount, ih]

theorem run_successes (n : Nat) (msg : Option String) : ∀ s : State,
    ∃ s1 : State, run (List.replicate n (Call.success msg)) s = .ret () s1 := by
  induction n with
  | zero => exact fun s => ⟨s, rfl⟩
  | succ n ih =>
    intro s
    obtain ⟨s1, h1⟩ := ih (libst_success s msg)
    refine ⟨s1, ?_⟩
    rw [List.replicate_succ]
    simpa [run, step] using h1

theorem maxSuccesses_reach : ∃ s : State,
    run maxSuccesses (libst_init blank) = .ret () s ∧ s.test.succeeded = 4294967295 := by
  obtain ⟨s, h1⟩ := run_successes 4294967295 none (libst_init blank)
  obtain ⟨-, e2⟩ := run_counters _ _ _ (by decide) (by decide) h1
  rw [resolvedCount_successes] at e2
  exact ⟨s, h1, by rw [e2]; decide⟩

/-- C13 (amended): at every verbosity level and with or without a message
`libst_success` sets `succeeded` to `(succeeded + 1) mod 2^32`, an increase by
exactly one whenever `succeeded` is below `G_MAXUINT`, and leaves `total` and
every other field unchanged; it prints "...OK" (no message) or
"...OK [message]" when the level is ALL and nothing at NORMAL and SILENT.  The
one other effect is at level ALL with a message: the buffer holding the
formatted message is freed after the print. -/
theorem libst_success_increments_succeeded (s : State) (msg : Option String) :
    (libst_success s msg).test =
      { s.test with succeeded := (s.test.succeeded + 1) % GUINT_MOD } ∧
    (s.test.succeeded + 1 < GUINT_MOD →
      (libst_success s msg).test.succeeded = s.test.succeeded + 1) ∧
    (s.test.level = .LEVEL_ALL →
      (libst_success s none).out = s.out ++ ["...OK\n"] ∧
      (libst_success s none).freed = s.freed ∧
      ∀ m : String,
        (libst_success s (some m)).out = s.out ++ ["...OK [" ++ m ++ "]\n"] ∧
        (libst_success s (some m)).freed = s.freed ++ [some m]) ∧
    (s.test.level ≠ .LEVEL_ALL →
      (libst_success s msg).out = s.out ∧ (libst_success s msg).freed = s.freed) ∧
    (libst_success s msg).sources = s.sources ∧
    (libst_success s msg).removed = s.removed ∧
    (libst_success s msg).loop_running = s.loop_running := by
  have htest : (libst_success s msg).test =
      { s.test with succeeded := (s.test.succeeded + 1) % GUINT_MOD } := by
    unfold libst_success
    split
    · cases msg <;> rfl
    · rfl
  refine ⟨htest, ?_, ?_, ?_, ?_, ?_, ?_⟩
  · intro h
    rw [htest]
    exact Nat.mod_eq_of_lt h
  · intro h
    refine ⟨?_, ?_, ?_⟩
    · simp [libst_success, h, g_print]
    · simp [libst_success, h, g_print]
    · intro m
      simp [libst_success, h, g_print, g_free]
  · intro h
    simp [libst_success, h]
  all_goals
    unfold libst_success
    split
    · cases msg <;> rfl
    · rfl

/-- C13 (witness): at level ALL, the first success of a run without a
message, and one with the message "fine", whose buffer is freed. -/
theorem libst_success_increments_succeeded_witness :
    openGroup.test.succeeded + 1 < GUINT_MOD ∧
    (libst_success openGroup none).test.succeeded = openGroup.test.succeeded + 1 ∧
    (libst_success openGroup none).out = openGroup.out ++ ["...OK\n"] ∧
    (libst_success openGroup (some "fine")).freed = openGroup.freed ++ [some "fine"] :=
  ⟨by decide,
   (libst_success_increments_succeeded openGroup none).2.1 (by decide),
   ((libst_success_increments_succeeded openGroup none).2.2.1 rfl).1,
   (((libst_success_increments_succeeded openGroup none).2.2.1 rfl).2.2 "fine").2⟩

/-- C13 (counterexample): `libst_init` followed by 4294967295 calls of
`libst_success` returns with `succeeded = G_MAXUINT`; one more `libst_success`
leaves `succeeded = 0`: not an increase by one. -/
theorem success_wraps_succeeded_counterexample :
    ∃ s : State, run maxSuccesses (libst_init blank) = .ret () s ∧
      s.test.succeeded = 4294967295 ∧
      (libst_success s none).test.succeeded = 0 ∧
      ¬ (libst_success s none).test.succeeded = s.test.succeeded + 1 := by
  obtain ⟨s, hrun, hs⟩ := maxSuccesses_reach
  have e : (libst_success s none).test.succeeded = 0 := by
    rw [(success_counters s none).2, hs]
    decide
  refine ⟨s, hrun, hs, e, ?_⟩
  rw [e, hs]
  decide

/-- C14: when no group is open and the requested class does not conflict
with the class filter, `libst_start` returns `TRUE`, stores the given name as
the group name, sets `started`, leaves every other field of the harness
unchanged, and prints the name followed by "..." when the level is NORMAL and
nothing at any other level. -/
theorem libst_start_opens_group (s : State) (name : String) (cls : LibSelfTestClass)
    (hclosed : s.test.started = false)
    (hok : ¬ ((cls = .CLASS_AUTO ∧ s.test.class_ = .CLASS_MANUAL) ∨
      (cls = .CLASS_MANUAL ∧ s.test.class_ = .CLASS_AUTO))) :
    ∃ s1 : State, libst_start s name cls = .ret true s1 ∧
      s1.test = { s.test with type := some name, started := true } ∧
      (s.test.level = .LEVEL_NORMAL → s1.out = s.out ++ [name ++ "..."]) ∧
      (s.test.level ≠ .LEVEL_NORMAL → s1.out = s.out) ∧
      s1.sources = s.sources ∧ s1.removed = s.removed ∧ s1.freed = s.freed := by
  rw [not_or] at hok
  have hns : ¬ s.test.started = true := by rw [hclosed]; decide
  unfold libst_start
  rw [if_neg hok.1, if_neg hok.2, if_neg hns]
  refine ⟨_, rfl, ?_, ?_, ?_, ?_, ?_, ?_⟩
  · dsimp only
    split_ifs <;> rfl
  · intro h
    simp [h, g_print, fmt_s]
  · intro h
    simp [h]
  all_goals
    dsimp only
    split_ifs <;> rfl

/-- C14 (witness): `libst_start ("math", CLASS_AUTO)` right after
`libst_init`, with the level set to NORMAL. -/
theorem libst_start_opens_group_witness :
    (configure (libst_init blank) .CLASS_AUTO .LEVEL_NORMAL).test.started = false ∧
    ∃ s1 : State,
      libst_start (configure (libst_init blank) .CLASS_AUTO .LEVEL_NORMAL) "math" .CLASS_AUTO
        = .ret true s1 ∧
      s1.test = { (configure (libst_init blank) .CLASS_AUTO .LEVEL_NORMAL).test with
        type := some "math", started := true } ∧
      ((configure (libst_init blank) .CLASS_AUTO .LEVEL_NORMAL).test.level = .LEVEL_NORMAL →
        s1.out = (configure (libst_init blank) .CLASS_AUTO .LEVEL_NORMAL).out
          ++ ["math" ++ "..."]) ∧
      ((configure (libst_init blank) .CLASS_AUTO .LEVEL_NORMAL).test.level ≠ .LEVEL_NORMAL →
        s1.out = (configure (libst_init blank) .CLASS_AUTO .LEVEL_NORMAL).out) ∧
      s1.sources = (configure (libst_init blank) .CLASS_AUTO .LEVEL_NORMAL).sources ∧
      s1.removed = (configure (libst_init blank) .CLASS_AUTO .LEVEL_NORMAL).removed ∧
      s1.freed = (configure (libst_init blank) .CLASS_AUTO .LEVEL_NORMAL).freed :=
  ⟨rfl,
   libst_start_opens_group (configure (libst_init blank) .CLASS_AUTO .LEVEL_NORMAL) "math"
     .CLASS_AUTO rfl (by decide)⟩

/-- C16: whatever the harness held before, after `libst_init` both counters
are 0, no group is open (`started` is `FALSE` and the group name is `NULL`),
the class filter is AUTO, the verbosity is ALL and the timeout handle is 0;
nothing is printed. -/
theorem libst_init_resets (s : State) :
    (libst_init s).test.total = 0 ∧
    (libst_init s).test.succeeded = 0 ∧
    (libst_init s).test.started = false ∧
    (libst_init s).test.type = none ∧
    (libst_init s).test.class_ = .CLASS_AUTO ∧
    (libst_init s).test.level = .LEVEL_ALL ∧
    (libst_init s).test.hang_loop_id = 0 ∧
    (libst_init s).out = s.out :=
  ⟨rfl, rfl, rfl, rfl, rfl, rfl, rfl, rfl⟩

/-- C15 (what the code does): when a group is open `libst_end` returns
normally with `started` `FALSE` and the timeout handle 0 (one
`g_source_remove` when the handle was non-zero), `total`, `succeeded`, `class`
and `level` unchanged, and "OK" printed when the level is NORMAL and nothing
otherwise; the group name is handed to `g_free`, but the field `type` keeps
the pointer: it is not reset to `NULL`. -/
theorem libst_end_closes_group (s : State) (hopen : s.test.started = true) :
    ∃ s1 : State, libst_end s = .ret () s1 ∧
      s1.test = { s.test with started := false, hang_loop_id := 0 } ∧
      s1.test.type = s.test.type ∧
      s1.freed = s.freed ++ [s.test.type] ∧
      (s.test.level = .LEVEL_NORMAL → s1.out = s.out ++ ["OK\n"]) ∧
      (s.test.level ≠ .LEVEL_NORMAL → s1.out = s.out) ∧
      (s.test.hang_loop_id = 0 → s1.removed = s.removed) ∧
      (s.test.hang_loop_id ≠ 0 →
        s1.removed = s.removed ++
          [(s.test.hang_loop_id, decide (s.test.hang_loop_id ∈ s.sources))]) := by
  have hns : ¬ s.test.started = false := by rw [hopen]; decide
  unfold libst_end
  rw [if_neg hns]
  refine ⟨_, rfl, ?_, ?_, ?_, ?_, ?_, ?_, ?_⟩
  · by_cases hl : s.test.level = .LEVEL_NORMAL <;>
      by_cases hh : s.test.hang_loop_id = 0 <;>
      simp [hl, hh, g_free, g_print, g_source_remove]
  · by_cases hl : s.test.level = .LEVEL_NORMAL <;>
      by_cases hh : s.test.hang_loop_id = 0 <;>
      simp [hl, hh, g_free, g_print, g_source_remove]
  · by_cases hl : s.test.level = .LEVEL_NORMAL <;>
      by_cases hh : s.test.hang_loop_id = 0 <;>
      simp [hl, hh, g_free, g_print, g_source_remove]
  · intro hl
    by_cases hh : s.test.hang_loop_id = 0 <;>
      simp [hl, hh, g_free, g_print, g_source_remove]
  · intro hl
    by_cases hh : s.test.hang_loop_id = 0 <;>
      simp [hl, hh, g_free, g_print, g_source_remove]
  · intro hh
    by_cases hl : s.test.level = .LEVEL_NORMAL <;>
      simp [hl, hh, g_free, g_print, g_source_remove]
  · intro hh
    by_cases hl : s.test.level = .LEVEL_NORMAL <;>
      simp [hl, hh, g_free, g_print, g_source_remove]

/-- C15 (the failing input): after `libst_init; libst_start ("a", CLASS_AUTO);
libst_end` the name "a" has been freed and `type` still points to it. -/
theorem libst_end_closes_group_witness :
    openGroup.test.started = true ∧
    ∃ s1 : State, libst_end openGroup = .ret () s1 ∧
      s1.test.started = false ∧
      s1.freed = [some "a"] ∧
      s1.test.type = some "a" ∧
      ¬ s1.test.type = none := by
  refine ⟨rfl, ?_⟩
  obtain ⟨s1, h1, h2, h3, h4, -⟩ := libst_end_closes_group openGroup rfl
  refine ⟨s1, h1, by rw [h2], by rw [h4]; rfl, by rw [h3]; rfl, ?_⟩
  rw [h3]
  exact fun h => Option.noConfusion h

/-- C18: `libst_loopquit` returns normally in every state, with the timeout
handle 0 and every other field of the harness unchanged, nothing printed or
freed; it calls `g_source_remove` (once, on the handle) only when the handle
was non-zero; and calling it twice in a row leaves the state one call
leaves. -/
theorem libst_loopquit_safe (s : State) :
    step Call.loopquit s = .ret .void (libst_loopquit s) ∧
    (libst_loopquit s).test = { s.test with hang_loop_id := 0 } ∧
    (libst_loopquit s).out = s.out ∧
    (libst_loopquit s).freed = s.freed ∧
    (s.test.hang_loop_id = 0 →
      (libst_loopquit s).removed = s.removed ∧ (libst_loopquit s).sources = s.sources) ∧
    (s.test.hang_loop_id ≠ 0 →
      (libst_loopquit s).removed = s.removed ++
        [(s.test.hang_loop_id, decide (s.test.hang_loop_id ∈ s.sources))] ∧
      (libst_loopquit s).sources = s.sources.erase s.test.hang_loop_id) ∧
    libst_loopquit (libst_loopquit s) = libst_loopquit s := by
  refine ⟨rfl, ?_, ?_, ?_, ?_, ?_, ?_⟩
  · by_cases hh : s.test.hang_loop_id = 0
    · simp [libst_loopquit, hh, g_main_loop_quit]
      rw [← hh]
    · simp [libst_loopquit, hh, g_main_loop_quit, g_source_remove]
  · by_cases hh : s.test.hang_loop_id = 0 <;>
      simp [libst_loopquit, hh, g_main_loop_quit, g_source_remove]
  · by_cases hh : s.test.hang_loop_id = 0 <;>
      simp [libst_loopquit, hh, g_main_loop_quit, g_source_remove]
  · intro hh
    simp [libst_loopquit, hh, g_main_loop_quit]
  · intro hh
    simp [libst_loopquit, hh, g_main_loop_quit, g_source_remove]
  · by_cases hh : s.test.hang_loop_id = 0 <;>
      simp [libst_loopquit, hh, g_main_loop_quit, g_source_remove]

/-- C18 (witness): `libst_loopquit` with no wait outstanding, right after
`libst_init`. -/
theorem libst_loopquit_safe_witness :
    (libst_init blank).test.hang_loop_id = 0 ∧
    (libst_loopquit (libst_init blank)).removed = (libst_init blank).removed ∧
    (libst_loopquit (libst_init blank)).sources = (libst_init blank).sources :=
  ⟨rfl, (libst_loopquit_safe (libst_init blank)).2.2.2.2.1 rfl⟩

/-- C19 (the failing input): after a wait that times out the source is gone
(GLib destroyed it when `libst_hang_check` returned `FALSE`) but the handle is
still 7, so the `libst_end` that closes the group, and likewise a
`libst_loopquit`, calls `g_source_remove (7)` on a source that is no longer
attached: the call returns `FALSE`. -/
theorem remove_after_timeout :
    (∃ s s1 : State,
      run [Call.start "a" .CLASS_AUTO, Call.loopwait 100 7 .timer_fired] (libst_init blank)
        = .ret () s ∧
      s.sources = [] ∧ s.test.hang_loop_id = 7 ∧
      libst_end s = .ret () s1 ∧ s1.removed = [(7, false)]) ∧
    (∃ s : State, run timedOutQuit (libst_init blank) = .ret () s ∧
      s.removed = [(7, false)]) :=
  ⟨⟨_, _, rfl, by decide, by decide, rfl, by decide⟩, ⟨_, rfl, by decide⟩⟩

/-! ## Verbosity -/

theorem step_hide (c : Call) (s1 s2 : State) (h : s1.hide = s2.hide) :
    (step c s1).hide = (step c s2).hide := by
  obtain ⟨⟨t1, u1, st1, c1, l1, ty1, h1, ud1⟩, o1, src1, lr1, rm1, fr1⟩ := s1
  obtain ⟨⟨t2, u2, st2, c2, l2, ty2, h2, ud2⟩, o2, src2, lr2, rm2, fr2⟩ := s2
  simp only [State.hide, State.mk.injEq, LibSelfTest.mk.injEq] at h
  obtain ⟨⟨rfl, rfl, rfl, rfl, -, rfl, rfl, rfl⟩, -, rfl, rfl, rfl, -⟩ := h
  cases c with
  | start name cls =>
    simp only [step, libst_start]
    split_ifs <;> simp_all [Outcome.toValue, Outcome.hide, State.hide, g_print, g_free]
  | end_ =>
    simp only [step, libst_end]
    split_ifs <;> simp_all [Outcome.toValue, Outcome.hide, State.hide, g_print, g_free,
      g_source_remove]
  | title msg =>
    simp only [step, libst_title]
    split_ifs <;> simp_all [Outcome.hide, State.hide, g_print, g_free]
  | success msg =>
    simp only [step, libst_success]
    split_ifs <;> cases msg <;> simp_all [Outcome.hide, State.hide, g_print, g_free]
  | failed msg =>
    simp only [step, libst_failed]
    split_ifs <;> cases msg <;>
      simp_all [Outcome.toValue, Outcome.hide, State.hide, g_print, g_free]
  | loopwait timeout id ev =>
    cases ev
    · simp [step, libst_loopwait, g_main_loop_run, libst_hang_check, g_main_loop_quit,
        g_timeout_add, Outcome.hide, State.hide]
    · simp only [step, libst_loopwait, g_main_loop_run, libst_loopquit]
      split_ifs <;>
        simp_all [g_main_loop_quit, g_timeout_add, g_source_remove, Outcome.hide, State.hide]
  | loopquit =>
    simp only [step, libst_loopquit]
    split_ifs <;> simp_all [Outcome.hide, State.hide, g_main_loop_quit, g_source_remove]
  | loopcheck elapsed =>
    simp only [step, libst_loopcheck, libst_title, libst_success, libst_failed]
    split_ifs <;> simp_all [Outcome.toValue, Outcome.hide, State.hide, g_print, g_free]
  | set_user_data p =>
    simp [step, libst_set_user_data, Outcome.hide, State.hide]
  | get_user_data =>
    simp [step, libst_get_user_data, Outcome.hide, State.hide]
  | finish =>
    simp only [step, libst_finish]
    split_ifs <;> simp_all [Outcome.hide, State.hide, g_print, g_free]

theorem trace_hide (cs : List Call) : ∀ s1 s2 : State, s1.hide = s2.hide →
    (trace cs s1).map Outcome.hide = (trace cs s2).map Outcome.hide := by
  induction cs with
  | nil => intro s1 s2 _; rfl
  | cons c cs ih =>
    intro s1 s2 h
    have hs := step_hide c s1 s2 h
    cases e1 : step c s1 with
    | ret v1 a1 =>
      cases e2 : step c s2 with
      | ret v2 a2 =>
        rw [e1, e2] at hs
        simp only [Outcome.hide, Outcome.ret.injEq] at hs
        simp only [trace, e1, e2, List.map_cons, Outcome.hide, hs.1, hs.2, ih a1 a2 hs.2]
      | exit n2 a2 =>
        rw [e1, e2] at hs
        simp [Outcome.hide] at hs
    | exit n1 a1 =>
      cases e2 : step c s2 with
      | ret v2 a2 =>
        rw [e1, e2] at hs
        simp [Outcome.hide] at hs
      | exit n2 a2 =>
        rw [e1, e2] at hs
        simp only [Outcome.hide, Outcome.exit.injEq] at hs
        simp only [trace, e1, e2, List.map_cons, Outcome.hide, hs.1, hs.2, List.map_nil]

/-- C17: verbosity affects only what is printed.  For a harness state and the
same state with another level, and any sequence of public calls applied to
both, the two runs execute the same number of calls and their outcomes agree
call by call once the level, the printed text and the record of freed buffers
(the text to print is allocated and freed only when it is printed) are left
out: the same returns and terminations, the same returned values (the boolean
of `libst_start`, the status of `libst_finish`), the same exit status, and the
same `total`, `succeeded`, `started`, group name, timeout handle, class filter,
user data, attached sources and `g_source_remove` calls. -/
theorem verbosity_only_prints (s : State) (lvl : LibSelfTestLevel) (cs : List Call) :
    (trace cs s).map Outcome.hide = (trace cs (setLevel s lvl)).map Outcome.hide ∧
    (trace cs s).length = (trace cs (setLevel s lvl)).length := by
  have h := trace_hide cs s (setLevel s lvl) rfl
  refine ⟨h, ?_⟩
  have hl := congrArg List.length h
  simpa using hl

/-! ## Disciplined runs -/

theorem disciplined_run (pre : List Call) : ∀ (rest : List Call) (p : Bool) (s s1 : State),
    disciplined p (pre ++ Call.finish :: rest) = true →
    s.test.total < GUINT_MOD → s.test.succeeded < GUINT_MOD →
    (p = true → s.test.total = (s.test.succeeded + 1) % GUINT_MOD) →
    (p = false → s.test.succeeded = s.test.total) →
    run pre s = .ret () s1 → s1.test.succeeded = s1.test.total := by
  induction pre with
  | nil =>
    intro rest p s s1 hd _ _ _ hf hrun
    simp only [run, Outcome.ret.injEq, true_and] at hrun
    subst hrun
    simp only [List.nil_append, disciplined, Bool.and_eq_true, Bool.not_eq_true'] at hd
    exact hf hd.1
  | cons c cs ih =>
    intro rest p s s1 hd h1 h2 ht hf hrun
    have hM : 0 < GUINT_MOD := by decide
    cases hstep : step c s with
    | exit n s2 => simp [run, hstep] at hrun
    | ret v s2 =>
      simp only [run, hstep] at hrun
      obtain ⟨e1, e2⟩ := step_counters c s s2 v h1 h2 hstep
      have b1 : s2.test.total < GUINT_MOD := by rw [e1]; exact Nat.mod_lt _ hM
      have b2 : s2.test.succeeded < GUINT_MOD := by rw [e2]; exact Nat.mod_lt _ hM
      cases c with
      | title msg =>
        simp only [List.cons_append, disciplined, Bool.and_eq_true, Bool.not_eq_true'] at hd
        simp only [announcedCount, resolvedCount, Nat.zero_add, Nat.add_zero,
          Nat.mod_eq_of_lt h2] at e1 e2
        refine ih rest true s2 s1 hd.2 b1 b2 (fun _ => ?_) (fun h => by cases h) hrun
        rw [e1, e2, hf hd.1]
      | success msg =>
        simp only [List.cons_append, disciplined, Bool.and_eq_true] at hd
        simp only [announcedCount, resolvedCount, Nat.zero_add, Nat.add_zero,
          Nat.mod_eq_of_lt h1] at e1 e2
        refine ih rest false s2 s1 hd.2 b1 b2 (fun h => by cases h) (fun _ => ?_) hrun
        rw [e1, e2, ht hd.1]
      | failed msg =>
        simp [step, libst_failed, Outcome.toValue] at hstep
      | loopcheck elapsed =>
        simp only [List.cons_append, disciplined, Bool.and_eq_true, Bool.not_eq_true'] at hd
        simp only [announcedCount, resolvedCount, Nat.zero_add] at e1 e2
        refine ih rest false s2 s1 hd.2 b1 b2 (fun h => by cases h) (fun _ => ?_) hrun
        rw [e1, e2, hf hd.1]
      | finish =>
        simp only [List.cons_append, disciplined, Bool.and_eq_true, Bool.not_eq_true'] at hd
        simp only [announcedCount, resolvedCount, Nat.add_zero, Nat.mod_eq_of_lt h1,
          Nat.mod_eq_of_lt h2] at e1 e2
        refine ih rest false s2 s1 hd.2 b1 b2 (fun h => by cases h) (fun _ => ?_) hrun
        rw [e1, e2, hf hd.1]
      | start name cls =>
        simp only [List.cons_append, disciplined] at hd
        simp only [announcedCount, resolvedCount, Nat.add_zero, Nat.mod_eq_of_lt h1,
          Nat.mod_eq_of_lt h2] at e1 e2
        exact ih rest p s2 s1 hd b1 b2 (by rw [e1, e2]; exact ht) (by rw [e1, e2]; exact hf) hrun
      | end_ =>
        simp only [List.cons_append, disciplined] at hd
        simp only [announcedCount, resolvedCount, Nat.add_zero, Nat.mod_eq_of_lt h1,
          Nat.mod_eq_of_lt h2] at e1 e2
        exact ih rest p s2 s1 hd b1 b2 (by rw [e1, e2]; exact ht) (by rw [e1, e2]; exact hf) hrun
      | loopwait timeout id ev =>
        simp only [List.cons_append, disciplined] at hd
        simp only [announcedCount, resolvedCount, Nat.add_zero, Nat.mod_eq_of_lt h1,
          Nat.mod_eq_of_lt h2] at e1 e2
        exact ih rest p s2 s1 hd b1 b2 (by rw [e1, e2]; exact ht) (by rw [e1, e2]; exact hf) hrun
      | loopquit =>
        simp only [List.cons_append, disciplined] at hd
        simp only [announcedCount, resolvedCount, Nat.add_zero, Nat.mod_eq_of_lt h1,
          Nat.mod_eq_of_lt h2] at e1 e2
        exact ih rest p s2 s1 hd b1 b2 (by rw [e1, e2]; exact ht) (by rw [e1, e2]; exact hf) hrun
      | set_user_data q =>
        simp only [List.cons_append, disciplined] at hd
        simp only [announcedCount, resolvedCount, Nat.add_zero, Nat.mod_eq_of_lt h1,
          Nat.mod_eq_of_lt h2] at e1 e2
        exact ih rest p s2 s1 hd b1 b2 (by rw [e1, e2]; exact ht) (by rw [e1, e2]; exact hf) hrun
      | get_user_data =>
        simp only [List.cons_append, disciplined] at hd
        simp only [announcedCount, resolvedCount, Nat.add_zero, Nat.mod_eq_of_lt h1,
          Nat.mod_eq_of_lt h2] at e1 e2
        exact ih rest p s2 s1 hd b1 b2 (by rw [e1, e2]; exact ht) (by rw [e1, e2]; exact hf) hrun

/-- C20: in a run from `libst_init` that keeps the discipline (every
`libst_title` resolved by `libst_success` or `libst_failed` before the next
`libst_title` or `libst_finish`, no `libst_success` without an unresolved
`libst_title`), whenever `libst_finish` is reached `succeeded == total`, it
returns 0 and it prints the summary ending in "ALL OKAY". -/
theorem finish_after_disciplined_run (s0 : State) (pre rest : List Call) (s : State)
    (hd : disciplined false (pre ++ Call.finish :: rest) = true)
    (hrun : run pre (libst_init s0) = .ret () s) :
    s.test.succeeded = s.test.total ∧
    (libst_finish s).1 = 0 ∧
    (libst_finish s).2.out = s.out ++
      ["test passes (" ++ fmt_u s.test.succeeded ++ "/" ++ fmt_u s.test.total ++ ") : ",
       "ALL OKAY\n"] := by
  have hM : 0 < GUINT_MOD := by decide
  have heq : s.test.succeeded = s.test.total :=
    disciplined_run pre rest false (libst_init s0) s hd hM hM (fun h => by cases h)
      (fun _ => rfl) hrun
  refine ⟨heq, ?_, ?_⟩
  · simp [libst_finish, heq]
  · simp [libst_finish, heq, g_print]

/-- C20 (witness): one group with one resolved check, then `libst_finish`. -/
theorem finish_after_disciplined_run_witness :
    disciplined false
      ([Call.start "math" .CLASS_AUTO, Call.title "add", Call.success none, Call.end_]
        ++ Call.finish :: []) = true ∧
    (libst_finish (run [Call.start "math" .CLASS_AUTO, Call.title "add", Call.success none,
      Call.end_] (libst_init blank)).state).1 = 0 :=
  ⟨by decide,
   (finish_after_disciplined_run blank
     [Call.start "math" .CLASS_AUTO, Call.title "add", Call.success none, Call.end_] [] _
     (by decide) (by decide)).2.1⟩

end Libselftest
